import Mathlib

/-!
# MMA8451Q accelerometer driver (Spark Core port)

A shallow embedding of `firmware/MMA8451-Accelerometer-Library-Spark-Core.cpp`.

* A `byte` is a `Fin 256`; every assignment of an `int` expression to a `byte`
  truncates with an explicit `% 256` (`toByte`, `intToByte`).
* The C++ `int` of the Spark Core (ARM Cortex-M3) is 32 bits wide; the width is a
  parameter of the arithmetic helpers so that the 16-bit `int` of the AVR the
  code was first written for can be compared with it.
* The `Wire` object is a simulated two-wire bus with one device on it: a register
  file with an auto-incrementing register pointer.
* A busy-wait on the bus that would never end is the result `none`.
* A `float` is the rational number it denotes; every float operation rounds its
  exact result to binary32 (`F32.round`).
-/

/-- An 8-bit unsigned `byte`. -/
abbrev Byte := Fin 256

/-- Truncation of a non-negative `int` value to a `byte`. -/
def toByte (n : Nat) : Byte := ⟨n % 256, Nat.mod_lt n (by decide)⟩

/-- Truncation of a signed `int` value to a `byte` (two's complement, low 8 bits). -/
def intToByte (v : Int) : Byte := toByte (v % 256).toNat

/-! ## Declarations of the header -/

/-- Modelled from the spec: the register enumeration `MMA8451Q_Register` of the header
`MMA8451-Accelerometer-Library-Spark-Core.h`, which is not among the sources. A
register is its 8-bit address on the device; the spec fixes the addresses to the
ones of the sensor's datasheet, which are the values below. -/
abbrev MMA8451Q_Register := Byte

/-- Modelled from the spec: status register (header constant, datasheet address). -/
def STATUS : MMA8451Q_Register := 0x00
/-- Modelled from the spec: X-axis high-byte data register, first of the six data-output registers. -/
def OUT_X_MSB : MMA8451Q_Register := 0x01
/-- Modelled from the spec: X-axis low-byte data register. -/
def OUT_X_LSB : MMA8451Q_Register := 0x02
/-- Modelled from the spec: Y-axis high-byte data register. -/
def OUT_Y_MSB : MMA8451Q_Register := 0x03
/-- Modelled from the spec: Y-axis low-byte data register. -/
def OUT_Y_LSB : MMA8451Q_Register := 0x04
/-- Modelled from the spec: Z-axis high-byte data register. -/
def OUT_Z_MSB : MMA8451Q_Register := 0x05
/-- Modelled from the spec: Z-axis low-byte data register. -/
def OUT_Z_LSB : MMA8451Q_Register := 0x06
/-- Modelled from the spec: identity register. -/
def WHO_AM_I : MMA8451Q_Register := 0x0D
/-- Modelled from the spec: data-configuration register. -/
def XYZ_DATA_CFG : MMA8451Q_Register := 0x0E
/-- Modelled from the spec: orientation-status register. -/
def PL_STATUS : MMA8451Q_Register := 0x10
/-- Modelled from the spec: orientation-configuration register. -/
def PL_CFG : MMA8451Q_Register := 0x11
/-- Modelled from the spec: orientation-debounce-count register. -/
def PL_COUNT : MMA8451Q_Register := 0x12
/-- Modelled from the spec: tap/pulse configuration register. -/
def PULSE_CFG : MMA8451Q_Register := 0x21
/-- Modelled from the spec: tap-source register. -/
def PULSE_SRC : MMA8451Q_Register := 0x22
/-- Modelled from the spec: X tap-threshold register. -/
def PULSE_THSX : MMA8451Q_Register := 0x23
/-- Modelled from the spec: Y tap-threshold register. -/
def PULSE_THSY : MMA8451Q_Register := 0x24
/-- Modelled from the spec: Z tap-threshold register. -/
def PULSE_THSZ : MMA8451Q_Register := 0x25
/-- Modelled from the spec: tap time-limit register. -/
def PULSE_TMLT : MMA8451Q_Register := 0x26
/-- Modelled from the spec: tap latency register. -/
def PULSE_LTCY : MMA8451Q_Register := 0x27
/-- Modelled from the spec: tap second-pulse window register. -/
def PULSE_WIND : MMA8451Q_Register := 0x28
/-- Modelled from the spec: primary control register. -/
def CTRL_REG1 : MMA8451Q_Register := 0x2A

/-- Modelled from the spec: the full-scale range enumeration of the missing header,
three values whose numeric codes are the g-ranges 2, 4 and 8. -/
inductive MMA8451Q_Scale where
  | SCALE_2G
  | SCALE_4G
  | SCALE_8G
  deriving DecidableEq, Repr

/-- Modelled from the spec: numeric code of a full-scale range (2, 4 or 8). -/
def MMA8451Q_Scale.toNat : MMA8451Q_Scale → Nat
  | .SCALE_2G => 2
  | .SCALE_4G => 4
  | .SCALE_8G => 8

/-- Modelled from the spec: the output-data-rate enumeration of the missing header,
eight levels 800, 400, 200, 100, 50, 12.5, 6.25 and 1.56 Hz with the codes 0 to 7. -/
inductive MMA8451Q_ODR where
  | ODR_800
  | ODR_400
  | ODR_200
  | ODR_100
  | ODR_50
  | ODR_12
  | ODR_6
  | ODR_1
  deriving DecidableEq, Repr

/-- Modelled from the spec: numeric code of an output data rate (0 to 7). -/
def MMA8451Q_ODR.toNat : MMA8451Q_ODR → Nat
  | .ODR_800 => 0
  | .ODR_400 => 1
  | .ODR_200 => 2
  | .ODR_100 => 3
  | .ODR_50 => 4
  | .ODR_12 => 5
  | .ODR_6 => 6
  | .ODR_1 => 7

/-- Modelled from the spec: the distinguished lockout result of the missing header,
the lockout bit of the orientation-status register taken as a value. -/
def LOCKOUT : Byte := 0x40

/-! ## The two-wire bus and the simulated sensor -/

/-- The `Wire` object together with the one simulated device that answers on the bus:
`regs` is the register file of the sensor, `ptr` its internal register pointer,
`txBuffer` the bytes queued since `beginTransmission`, `rxBuffer` the bytes received
by the last `requestFrom` and not yet read, `writes` the log of all register stores
the device has performed, oldest first. -/
structure TwoWire where
  regs : Byte → Byte
  ptr : Byte
  txBuffer : List Byte
  rxBuffer : List Byte
  writes : List (Byte × Byte)

namespace TwoWire

/-- The device stores one payload byte at its register pointer and advances the pointer. -/
def store (w : TwoWire) (b : Byte) : TwoWire :=
  { w with regs := Function.update w.regs w.ptr b
           ptr := toByte (w.ptr.val + 1)
           writes := w.writes ++ [(w.ptr, b)] }

/-- Bus set-up `Wire.begin()`: empties both buffers. -/
def begin (w : TwoWire) : TwoWire :=
  { w with txBuffer := [], rxBuffer := [] }

/-- Start of a write transaction `Wire.beginTransmission(address)`. -/
def beginTransmission (w : TwoWire) (_address : Byte) : TwoWire :=
  { w with txBuffer := [] }

/-- Queue one byte `Wire.write(b)`. -/
def write (w : TwoWire) (b : Byte) : TwoWire :=
  { w with txBuffer := w.txBuffer ++ [b] }

/-- Send the queued bytes `Wire.endTransmission(stop)`: the first byte sets the register
pointer of the device, the following bytes are stored in order. -/
def endTransmission (w : TwoWire) (_stop : Bool) : TwoWire :=
  match w.txBuffer with
  | [] => w
  | reg :: payload => payload.foldl store { w with ptr := reg, txBuffer := [] }

/-- Read request `Wire.requestFrom(address, quantity)`: the device sends `quantity`
bytes from its register pointer on, advancing the pointer. -/
def requestFrom (w : TwoWire) (_address : Byte) (quantity : Nat) : TwoWire :=
  { w with rxBuffer := (List.range quantity).map (fun i => w.regs (toByte (w.ptr.val + i)))
           ptr := toByte (w.ptr.val + quantity) }

/-- Number of received bytes not yet read, `Wire.available()`. -/
def available (w : TwoWire) : Nat := w.rxBuffer.length

/-- Take the next received byte, `Wire.read()`; -1 when there is none. -/
def read (w : TwoWire) : Int × TwoWire :=
  match w.rxBuffer with
  | [] => (-1, w)
  | b :: rest => ((b.val : Int), { w with rxBuffer := rest })

/-- A bus at rest in front of a sensor whose register file is `regs`. -/
def ofRegs (regs : Byte → Byte) : TwoWire :=
  { regs := regs, ptr := 0, txBuffer := [], rxBuffer := [], writes := [] }

/-- The bus once a read transaction of `n` bytes from register `reg` on is over. -/
def afterRead (w : TwoWire) (reg : Byte) (n : Nat) : TwoWire :=
  { w with ptr := toByte (reg.val + n), txBuffer := [], rxBuffer := [] }

/-- The register file `regs` after the register stores of the log `l`, oldest first. -/
def replay (regs : Byte → Byte) (l : List (Byte × Byte)) : Byte → Byte :=
  l.foldl (fun r p => Function.update r p.1 p.2) regs

end TwoWire

/-! ## Integer and float arithmetic of the target -/

/-- Width in bits of the C++ `int` on the Spark Core. -/
def INT_BITS : Nat := 32

/-- Reduction of an integer to the two's-complement range of a `bits`-wide `int`. -/
def wrapInt (bits : Nat) (v : Int) : Int :=
  (v + 2 ^ (bits - 1)) % 2 ^ bits - 2 ^ (bits - 1)

/-- Bitwise or of two `bits`-wide two's-complement `int` values: the or of their
unsigned bit patterns, read back as a signed value. -/
def orInt (bits : Nat) (a b : Int) : Int :=
  wrapInt bits (((a % 2 ^ bits).toNat ||| (b % 2 ^ bits).toNat : Nat) : Int)

/-- The `int` expression `(hi << 8 | lo) >> 2` on bytes promoted to a `bits`-wide `int`:
the left shift wraps to the width, the right shift is arithmetic. -/
def combineShift (bits : Nat) (hi lo : Byte) : Int :=
  (orInt bits (wrapInt bits ((hi.val : Int) * 2 ^ 8)) (lo.val : Int)) >>> 2

namespace F32

/-- Nearest integer to a rational, ties to the even neighbour. -/
def roundHalfEven (q : ℚ) : ℤ :=
  let f := ⌊q⌋
  let r := q - f
  if r < 1 / 2 then f
  else if 1 / 2 < r then f + 1
  else if f % 2 = 0 then f else f + 1

/-- Exponent of the unit in the last place of the binary32 numbers around `q`:
24 significant bits, and never below the subnormal exponent -149. -/
def ulpExp (q : ℚ) : ℤ := max (Int.log 2 |q| - 23) (-149)

/-- Rounding of an exact result to binary32, round-to-nearest-even (finite range). -/
def round (q : ℚ) : ℚ := (roundHalfEven (q / (2 : ℚ) ^ ulpExp q) : ℚ) * (2 : ℚ) ^ ulpExp q

/-- The cast `(float) n` of an integer. -/
def ofInt (n : Int) : ℚ := round (n : ℚ)

/-- Float division. -/
def div (a b : ℚ) : ℚ := round (a / b)

/-- Float multiplication. -/
def mul (a b : ℚ) : ℚ := round (a * b)

end F32

/-! ## The driver -/

/-- The member variables of the class `MMA8451Q`: the public `int` triple `x`, `y`, `z`,
the public `float` triple `cx`, `cy`, `cz`, and the private bus address and scale. -/
structure MMA8451Q where
  x : Int
  y : Int
  z : Int
  cx : ℚ
  cy : ℚ
  cz : ℚ
  address : Byte
  scale : MMA8451Q_Scale

namespace MMA8451Q

/-- The constructor `MMA8451Q(addr)` (lines 34-37): stores the address; the other
members are not set by it and start here as zero and `SCALE_2G`. -/
def new (addr : Byte) : MMA8451Q :=
  { x := 0, y := 0, z := 0, cx := 0, cy := 0, cz := 0, address := addr,
    scale := MMA8451Q_Scale.SCALE_2G }

/-- Write `buffer` to the registers from `reg` on (`writeRegisters`, lines 232-239). -/
def writeRegisters (d : MMA8451Q) (w : TwoWire) (reg : MMA8451Q_Register)
    (buffer : List Byte) : TwoWire :=
  let w1 := w.beginTransmission d.address
  let w2 := w1.write reg
  let w3 := buffer.foldl (fun acc b => acc.write b) w2
  w3.endTransmission true

/-- Write one byte to a register (`writeRegister`, lines 224-227). -/
def writeRegister (d : MMA8451Q) (w : TwoWire) (reg : MMA8451Q_Register) (data : Byte) :
    TwoWire :=
  writeRegisters d w reg [data]

/-- Read one register (`readRegister`, lines 243-254); `none` when the wait for the
byte never ends. -/
def readRegister (d : MMA8451Q) (w : TwoWire) (reg : MMA8451Q_Register) :
    Option (Byte × TwoWire) :=
  let w1 := w.beginTransmission d.address
  let w2 := w1.write reg
  let w3 := w2.endTransmission false
  let w4 := w3.requestFrom d.address 1
  if w4.available = 0 then none
  else
    let r := w4.read
    some (intToByte r.1, r.2)

/-- The loop `for (x = 0; x < len; x++) buffer[x] = Wire.read();` of `readRegisters`. -/
def readLoop : Nat → TwoWire → List Byte × TwoWire
  | 0, w => ([], w)
  | n + 1, w =>
    let r := w.read
    let rest := readLoop n r.2
    (intToByte r.1 :: rest.1, rest.2)

/-- Read `len` registers from `reg` on (`readRegisters`, lines 259-271); `none` when the
wait for the bytes never ends. -/
def readRegisters (d : MMA8451Q) (w : TwoWire) (reg : MMA8451Q_Register) (len : Nat) :
    Option (List Byte × TwoWire) :=
  let w1 := w.beginTransmission d.address
  let w2 := w1.write reg
  let w3 := w2.endTransmission false
  let w4 := w3.requestFrom d.address len
  if w4.available < len then none
  else some (readLoop len w4)

/-- Enter standby mode (`standby`, lines 208-212): clear bit 0 of `CTRL_REG1`. -/
def standby (d : MMA8451Q) (w : TwoWire) : Option TwoWire :=
  match readRegister d w CTRL_REG1 with
  | none => none
  | some (c, w1) => some (writeRegister d w1 CTRL_REG1 (intToByte (Int.land (c.val : Int) (Int.not 1))))

/-- Enter active mode (`active`, lines 216-220): set bit 0 of `CTRL_REG1`. -/
def active (d : MMA8451Q) (w : TwoWire) : Option TwoWire :=
  match readRegister d w CTRL_REG1 with
  | none => none
  | some (c, w1) => some (writeRegister d w1 CTRL_REG1 (toByte (c.val ||| 0x01)))

/-- Set the full-scale range (`setScale`, lines 102-109). -/
def setScale (d : MMA8451Q) (w : TwoWire) (fsr : MMA8451Q_Scale) : Option TwoWire :=
  match readRegister d w XYZ_DATA_CFG with
  | none => none
  | some (cfg, w1) =>
    let cfg1 := toByte (cfg.val &&& 0xFC)
    let cfg2 := toByte (cfg1.val ||| (fsr.toNat >>> 2))
    some (writeRegister d w1 XYZ_DATA_CFG cfg2)

/-- Set the output data rate (`setODR`, lines 115-122). -/
def setODR (d : MMA8451Q) (w : TwoWire) (odr : MMA8451Q_ODR) : Option TwoWire :=
  match readRegister d w CTRL_REG1 with
  | none => none
  | some (ctrl, w1) =>
    let ctrl1 := toByte (ctrl.val &&& 0xCF)
    let ctrl2 := toByte (ctrl1.val ||| (odr.toNat <<< 3))
    some (writeRegister d w1 CTRL_REG1 ctrl2)

/-- Set up tap detection (`setupTap`, lines 131-162). -/
def setupTap (d : MMA8451Q) (w : TwoWire) (xThs yThs zThs : Byte) : TwoWire :=
  let temp0 : Byte := 0
  let s1 : Byte × TwoWire :=
    if xThs.val &&& 0x80 = 0 then
      (toByte (temp0.val ||| 0x3), writeRegister d w PULSE_THSX xThs)
    else (temp0, w)
  let s2 : Byte × TwoWire :=
    if yThs.val &&& 0x80 = 0 then
      (toByte (s1.1.val ||| 0xC), writeRegister d s1.2 PULSE_THSY yThs)
    else s1
  let s3 : Byte × TwoWire :=
    if zThs.val &&& 0x80 = 0 then
      (toByte (s2.1.val ||| 0x30), writeRegister d s2.2 PULSE_THSZ zThs)
    else s2
  let w4 := writeRegister d s3.2 PULSE_CFG (toByte (s3.1.val ||| 0x40))
  let w5 := writeRegister d w4 PULSE_TMLT 0x30
  let w6 := writeRegister d w5 PULSE_LTCY 0xA0
  writeRegister d w6 PULSE_WIND 0xFF

/-- Read the tap status (`readTap`, lines 168-177). -/
def readTap (d : MMA8451Q) (w : TwoWire) : Option (Byte × TwoWire) :=
  match readRegister d w PULSE_SRC with
  | none => none
  | some (tapStat, w1) =>
    if tapStat.val &&& 0x80 ≠ 0 then some (toByte (tapStat.val &&& 0x7F), w1)
    else some (0, w1)

/-- Set up portrait/landscape detection (`setupPL`, lines 181-190). -/
def setupPL (d : MMA8451Q) (w : TwoWire) : Option TwoWire :=
  match readRegister d w PL_CFG with
  | none => none
  | some (c, w1) =>
    let w2 := writeRegister d w1 PL_CFG (toByte (c.val ||| 0x40))
    some (writeRegister d w2 PL_COUNT 0x50)

/-- Read the portrait/landscape status (`readPL`, lines 196-204). -/
def readPL (d : MMA8451Q) (w : TwoWire) : Option (Byte × TwoWire) :=
  match readRegister d w PL_STATUS with
  | none => none
  | some (plStat, w1) =>
    if plStat.val &&& 0x40 ≠ 0 then some (LOCKOUT, w1)
    else some (toByte ((plStat.val &&& 0x6) >>> 1), w1)

/-- Data-ready flag (`available`, lines 94-97). -/
def available (d : MMA8451Q) (w : TwoWire) : Option (Byte × TwoWire) :=
  match readRegister d w STATUS with
  | none => none
  | some (s, w1) => some (toByte ((s.val &&& 0x08) >>> 3), w1)

/-- The calibration expression `(float) v / (float)(1<<13) * (float)(scale)`. -/
def calibrate (v : Int) (scale : MMA8451Q_Scale) : ℚ :=
  F32.mul (F32.div (F32.ofInt v) (F32.ofInt (1 <<< 13 : Nat))) (F32.ofInt scale.toNat)

/-- Read the acceleration data (`read`, lines 77-89). -/
def read (d : MMA8451Q) (w : TwoWire) : Option (MMA8451Q × TwoWire) :=
  match readRegisters d w OUT_X_MSB 6 with
  | none => none
  | some (rawData, w1) =>
    let x := combineShift INT_BITS (rawData.getD 0 0) (rawData.getD 1 0)
    let y := combineShift INT_BITS (rawData.getD 2 0) (rawData.getD 3 0)
    let z := combineShift INT_BITS (rawData.getD 4 0) (rawData.getD 5 0)
    some ({ d with x := x, y := y, z := z,
                   cx := calibrate x d.scale,
                   cy := calibrate y d.scale,
                   cz := calibrate z d.scale }, w1)

/-- Initialise the sensor (`init`, lines 44-68): 0 on an identity mismatch, 1 otherwise. -/
def init (d : MMA8451Q) (w : TwoWire) (fsr : MMA8451Q_Scale) (odr : MMA8451Q_ODR) :
    Option (Byte × MMA8451Q × TwoWire) :=
  let d1 := { d with scale := fsr }
  let w0 := w.begin
  match readRegister d1 w0 WHO_AM_I with
  | none => none
  | some (c, w1) =>
    if c ≠ 0x1A then some (0, d1, w1)
    else
      match standby d1 w1 with
      | none => none
      | some w2 =>
        match setScale d1 w2 d1.scale with
        | none => none
        | some w3 =>
          match setODR d1 w3 odr with
          | none => none
          | some w4 =>
            match setupPL d1 w4 with
            | none => none
            | some w5 =>
              let w6 := setupTap d1 w5 0x80 0x80 0x08
              match active d1 w6 with
              | none => none
              | some w7 => some (1, d1, w7)

end MMA8451Q

/-! ## Bytes and the bus -/

theorem intToByte_val (b : Byte) : intToByte (b.val : Int) = b := by
  apply Fin.ext
  have h := b.isLt
  simp only [intToByte, toByte]
  omega

theorem toByte_val (b : Byte) : toByte b.val = b := by
  apply Fin.ext
  have h := b.isLt
  simp only [toByte]
  omega

namespace MMA8451Q

/-- A register write stores the byte, moves the register pointer behind it and adds
one entry to the log of stores. -/
theorem writeRegister_eq (d : MMA8451Q) (w : TwoWire) (reg v : Byte) :
    writeRegister d w reg v =
      { w with regs := Function.update w.regs reg v
               ptr := toByte (reg.val + 1)
               txBuffer := []
               writes := w.writes ++ [(reg, v)] } := by
  simp [writeRegister, writeRegisters, TwoWire.beginTransmission, TwoWire.write,
    TwoWire.endTransmission, TwoWire.store]

/-- A register read returns the byte of the register file and never hangs on the
simulated bus. -/
theorem readRegister_eq (d : MMA8451Q) (w : TwoWire) (reg : Byte) :
    readRegister d w reg = some (w.regs reg, w.afterRead reg 1) := by
  have h1 : List.range 1 = [0] := rfl
  simp [readRegister, TwoWire.beginTransmission, TwoWire.write, TwoWire.afterRead,
    TwoWire.endTransmission, TwoWire.requestFrom, TwoWire.available, TwoWire.read,
    intToByte_val, toByte_val, h1]

/-- The six-byte read of the data registers returns them in register order. -/
theorem readRegisters_six (d : MMA8451Q) (w : TwoWire) :
    readRegisters d w OUT_X_MSB 6 =
      some ([w.regs OUT_X_MSB, w.regs OUT_X_LSB, w.regs OUT_Y_MSB, w.regs OUT_Y_LSB,
             w.regs OUT_Z_MSB, w.regs OUT_Z_LSB], w.afterRead OUT_X_MSB 6) := by
  have h6 : List.range 6 = [0, 1, 2, 3, 4, 5] := rfl
  simp [readRegisters, TwoWire.beginTransmission, TwoWire.write, TwoWire.afterRead,
    TwoWire.endTransmission, TwoWire.requestFrom, TwoWire.available, TwoWire.read,
    intToByte_val, toByte_val, h6, readLoop]
  refine ⟨?_, ?_, ?_, ?_, ?_⟩ <;> rfl

end MMA8451Q

/-- On a non-negative `int` the truncation to a byte is the one of the natural number. -/
theorem intToByte_natCast (n : Nat) : intToByte (n : Int) = toByte n := by
  apply Fin.ext
  simp only [intToByte, toByte]
  omega

/-- Clearing bit 0 of a natural number. -/
theorem ldiff_one (m : Nat) : Nat.ldiff m 1 = m / 2 * 2 := by
  apply Nat.eq_of_testBit_eq
  intro i
  rw [Nat.testBit_ldiff]
  cases i with
  | zero => simp [Nat.testBit_zero]
  | succ i =>
    simp [Nat.testBit_succ]

/-- The `int` expression `c & ~(0x01)` assigned to a byte. -/
theorem land_not_one (m : Nat) :
    intToByte (Int.land (m : Int) (Int.not 1)) = toByte (m / 2 * 2) := by
  have h : Int.land (m : Int) (Int.not 1) = ((Nat.ldiff m 1 : Nat) : Int) := rfl
  rw [h, intToByte_natCast, ldiff_one]

set_option maxRecDepth 100000 in
/-- Clearing bit 0 of a byte is the mask `0xFE`. -/
theorem clear_bit0_eq : ∀ c : Byte, toByte (c.val / 2 * 2) = toByte (c.val &&& 0xFE) := by
  decide

/-! ## Float and integer arithmetic -/

namespace F32

theorem roundHalfEven_intCast (n : ℤ) : roundHalfEven (n : ℚ) = n := by
  simp [roundHalfEven]

/-- A rational `m * 2 ^ k` with a significand below `2 ^ 24` and an exponent not below
-149 is a binary32 number: rounding leaves it as it is. -/
theorem round_exact (m k : ℤ) (hm : |m| < 2 ^ 24) (hk : -149 ≤ k) :
    round ((m : ℚ) * (2 : ℚ) ^ k) = (m : ℚ) * (2 : ℚ) ^ k := by
  by_cases h0 : m = 0
  · subst h0
    simp [round, roundHalfEven]
  · have h2pos : (0 : ℚ) < (2 : ℚ) ^ k := zpow_pos (by norm_num) k
    have hqpos : (0 : ℚ) < |(m : ℚ) * (2 : ℚ) ^ k| := by
      rw [abs_pos]
      exact mul_ne_zero (by exact_mod_cast h0) (ne_of_gt h2pos)
    have hlt : |(m : ℚ) * (2 : ℚ) ^ k| < ((2 : ℕ) : ℚ) ^ (k + 24) := by
      rw [abs_mul, abs_of_pos h2pos, zpow_add₀ (by norm_num), mul_comm]
      apply mul_lt_mul_of_pos_left _ (by exact_mod_cast h2pos)
      have : ((|m| : ℤ) : ℚ) < ((2 ^ 24 : ℤ) : ℚ) := by exact_mod_cast hm
      push_cast at this ⊢
      norm_num at this ⊢
      exact this
    have hlog : Int.log 2 |(m : ℚ) * (2 : ℚ) ^ k| < k + 24 :=
      (Int.lt_zpow_iff_log_lt (by norm_num) hqpos).1 hlt
    have he : ulpExp ((m : ℚ) * (2 : ℚ) ^ k) ≤ k := by
      unfold ulpExp
      exact max_le (by omega) hk
    obtain ⟨n, hn⟩ := Int.eq_ofNat_of_zero_le (sub_nonneg.2 he)
    have hk' : k = ulpExp ((m : ℚ) * (2 : ℚ) ^ k) + n := by omega
    unfold round
    generalize ulpExp ((m : ℚ) * (2 : ℚ) ^ k) = e at hk' ⊢
    have hdiv : (m : ℚ) * (2 : ℚ) ^ k / (2 : ℚ) ^ e = ((m * 2 ^ n : ℤ) : ℚ) := by
      rw [hk', zpow_add₀ (by norm_num)]
      have : (2 : ℚ) ^ e ≠ 0 := ne_of_gt (zpow_pos (by norm_num) e)
      field_simp
      ring
    rw [hdiv, roundHalfEven_intCast, hk', zpow_add₀ (by norm_num), zpow_natCast]
    push_cast
    ring

end F32

theorem wrapInt_32_of_small (n : Nat) (h : n < 65536) :
    wrapInt INT_BITS (n : Int) = (n : Int) := by
  simp only [wrapInt, INT_BITS]
  norm_num
  omega

theorem or_low_byte (hi lo : Byte) : hi.val * 256 ||| lo.val = hi.val * 256 + lo.val := by
  have hl : lo.val < 2 ^ 8 := lo.isLt
  have := Nat.mul_add_lt_is_or hl hi.val
  rw [Nat.mul_comm]
  exact this.symm

/-- With the 32-bit `int` of the target the shift `hi << 8` never wraps and the word
ored with `lo` is never negative: the expression is the unsigned 16-bit word divided
by 4, a value from 0 to 16383. -/
theorem combineShift_32 (hi lo : Byte) :
    combineShift INT_BITS hi lo = (((hi.val * 256 + lo.val) / 4 : Nat) : Int) := by
  have hh := hi.isLt
  have hl := lo.isLt
  have e0 : (hi.val : Int) * 2 ^ 8 = ((hi.val * 256 : Nat) : Int) := by
    push_cast
    norm_num
  have e1 : (((hi.val * 256 : Nat) : Int) % 2 ^ INT_BITS).toNat = hi.val * 256 := by
    simp only [INT_BITS]
    omega
  have e2 : ((lo.val : Int) % 2 ^ INT_BITS).toNat = lo.val := by
    simp only [INT_BITS]
    omega
  rw [combineShift, orInt, e0, wrapInt_32_of_small (hi.val * 256) (by omega), e1, e2,
    or_low_byte, wrapInt_32_of_small (hi.val * 256 + lo.val) (by omega)]
  have h2 : ∀ m : Nat, (m : Int) >>> 2 = ((m / 4 : Nat) : Int) := by
    intro m
    have : (m : Int) >>> 2 = ((m >>> 2 : Nat) : Int) := rfl
    rw [this, Nat.shiftRight_eq_div_pow]
  exact h2 _

theorem combineShift_32_bounds (hi lo : Byte) :
    0 ≤ combineShift INT_BITS hi lo ∧ combineShift INT_BITS hi lo < 16384 := by
  have hh := hi.isLt
  have hl := lo.isLt
  rw [combineShift_32]
  omega

/-- On a 16-bit `int`, as on the AVR the code was first written for, the same expression
sign-extends: bytes `0xC0, 0x00` give -4096. -/
theorem combineShift_16_negative : combineShift 16 0xC0 0x00 = -4096 := by decide

namespace MMA8451Q

/-- For every `int` value of at most 24 significant bits the three float operations of
the calibration are exact: the result is the rational `v / 8192 * scale`. -/
theorem calibrate_exact (v : Int) (s : MMA8451Q_Scale) (hv : |v| < 2 ^ 24) :
    calibrate v s = (v : ℚ) / 8192 * (s.toNat : ℚ) := by
  have e1 : F32.ofInt v = (v : ℚ) := by
    have := F32.round_exact v 0 hv (by norm_num)
    simpa [F32.ofInt] using this
  have e2 : F32.ofInt ((1 <<< 13 : Nat) : Int) = 8192 := by
    have := F32.round_exact 1 13 (by norm_num) (by norm_num)
    have h : ((1 <<< 13 : Nat) : Int) = 8192 := by decide
    rw [h]
    norm_num [F32.ofInt] at this ⊢
    exact this
  have e3 : F32.ofInt (s.toNat : Int) = (s.toNat : ℚ) := by
    cases s
    · have := F32.round_exact 1 1 (by norm_num) (by norm_num)
      norm_num [F32.ofInt, MMA8451Q_Scale.toNat] at this ⊢
      exact this
    · have := F32.round_exact 1 2 (by norm_num) (by norm_num)
      norm_num [F32.ofInt, MMA8451Q_Scale.toNat] at this ⊢
      exact this
    · have := F32.round_exact 1 3 (by norm_num) (by norm_num)
      norm_num [F32.ofInt, MMA8451Q_Scale.toNat] at this ⊢
      exact this
  have e4 : F32.div (v : ℚ) 8192 = (v : ℚ) / 8192 := by
    have := F32.round_exact v (-13) hv (by norm_num)
    have h : (v : ℚ) * (2 : ℚ) ^ (-13 : ℤ) = (v : ℚ) / 8192 := by
      rw [zpow_neg]; norm_num [div_eq_mul_inv]
    rw [h] at this
    exact this
  have e5 : F32.mul ((v : ℚ) / 8192) (s.toNat : ℚ) = (v : ℚ) / 8192 * (s.toNat : ℚ) := by
    cases s
    · have := F32.round_exact v (-12) hv (by norm_num)
      have h : (v : ℚ) * (2 : ℚ) ^ (-12 : ℤ) = (v : ℚ) / 8192 * 2 := by
        rw [zpow_neg]; norm_num [div_eq_mul_inv]; ring
      rw [h] at this
      simpa [F32.mul, MMA8451Q_Scale.toNat] using this
    · have := F32.round_exact v (-11) hv (by norm_num)
      have h : (v : ℚ) * (2 : ℚ) ^ (-11 : ℤ) = (v : ℚ) / 8192 * 4 := by
        rw [zpow_neg]; norm_num [div_eq_mul_inv]; ring
      rw [h] at this
      simpa [F32.mul, MMA8451Q_Scale.toNat] using this
    · have := F32.round_exact v (-10) hv (by norm_num)
      have h : (v : ℚ) * (2 : ℚ) ^ (-10 : ℤ) = (v : ℚ) / 8192 * 8 := by
        rw [zpow_neg]; norm_num [div_eq_mul_inv]; ring
      rw [h] at this
      simpa [F32.mul, MMA8451Q_Scale.toNat] using this
  unfold calibrate
  rw [e1, e2, e3, e4, e5]

/-- The calibrated value of a decoded axis is the exact rational `raw / 8192 * scale`. -/
theorem calibrate_combineShift (hi lo : Byte) (s : MMA8451Q_Scale) :
    calibrate (combineShift INT_BITS hi lo) s
      = (combineShift INT_BITS hi lo : ℚ) / 8192 * (s.toNat : ℚ) := by
  apply calibrate_exact
  have h := combineShift_32_bounds hi lo
  rw [abs_lt]
  constructor <;> omega

end MMA8451Q

/-! ## The operations on the simulated bus -/

namespace MMA8451Q

theorem writeRegister_regs (d : MMA8451Q) (w : TwoWire) (reg v : Byte) :
    (writeRegister d w reg v).regs = Function.update w.regs reg v := by
  rw [writeRegister_eq]

theorem writeRegister_writes (d : MMA8451Q) (w : TwoWire) (reg v : Byte) :
    (writeRegister d w reg v).writes = w.writes ++ [(reg, v)] := by
  rw [writeRegister_eq]

theorem setODR_eq (d : MMA8451Q) (w : TwoWire) (odr : MMA8451Q_ODR) :
    setODR d w odr = some (writeRegister d (w.afterRead CTRL_REG1 1) CTRL_REG1
      (toByte ((toByte ((w.regs CTRL_REG1).val &&& 0xCF)).val ||| (odr.toNat <<< 3)))) := by
  simp [setODR, readRegister_eq]

theorem setScale_eq (d : MMA8451Q) (w : TwoWire) (fsr : MMA8451Q_Scale) :
    setScale d w fsr = some (writeRegister d (w.afterRead XYZ_DATA_CFG 1) XYZ_DATA_CFG
      (toByte ((toByte ((w.regs XYZ_DATA_CFG).val &&& 0xFC)).val ||| (fsr.toNat >>> 2)))) := by
  simp [setScale, readRegister_eq]

theorem standby_eq (d : MMA8451Q) (w : TwoWire) :
    standby d w = some (writeRegister d (w.afterRead CTRL_REG1 1) CTRL_REG1
      (intToByte (Int.land ((w.regs CTRL_REG1).val : Int) (Int.not 1)))) := by
  simp [standby, readRegister_eq]

theorem active_eq (d : MMA8451Q) (w : TwoWire) :
    active d w = some (writeRegister d (w.afterRead CTRL_REG1 1) CTRL_REG1
      (toByte ((w.regs CTRL_REG1).val ||| 0x01))) := by
  simp [active, readRegister_eq]

theorem setupPL_eq (d : MMA8451Q) (w : TwoWire) :
    setupPL d w = some (writeRegister d
      (writeRegister d (w.afterRead PL_CFG 1) PL_CFG (toByte ((w.regs PL_CFG).val ||| 0x40)))
      PL_COUNT 0x50) := by
  simp [setupPL, readRegister_eq]

theorem read_eq (d : MMA8451Q) (w : TwoWire) :
    read d w = some
      ({ d with x := combineShift INT_BITS (w.regs OUT_X_MSB) (w.regs OUT_X_LSB)
                y := combineShift INT_BITS (w.regs OUT_Y_MSB) (w.regs OUT_Y_LSB)
                z := combineShift INT_BITS (w.regs OUT_Z_MSB) (w.regs OUT_Z_LSB)
                cx := calibrate (combineShift INT_BITS (w.regs OUT_X_MSB) (w.regs OUT_X_LSB)) d.scale
                cy := calibrate (combineShift INT_BITS (w.regs OUT_Y_MSB) (w.regs OUT_Y_LSB)) d.scale
                cz := calibrate (combineShift INT_BITS (w.regs OUT_Z_MSB) (w.regs OUT_Z_LSB)) d.scale },
        w.afterRead OUT_X_MSB 6) := by
  simp [read, readRegisters_six]

theorem readTap_eq (d : MMA8451Q) (w : TwoWire) :
    readTap d w = some
      (if (w.regs PULSE_SRC).val &&& 0x80 ≠ 0 then toByte ((w.regs PULSE_SRC).val &&& 0x7F) else 0,
        w.afterRead PULSE_SRC 1) := by
  simp only [readTap, readRegister_eq]
  split <;> rfl

theorem readPL_eq (d : MMA8451Q) (w : TwoWire) :
    readPL d w = some
      (if (w.regs PL_STATUS).val &&& 0x40 ≠ 0 then LOCKOUT
        else toByte (((w.regs PL_STATUS).val &&& 0x6) >>> 1),
        w.afterRead PL_STATUS 1) := by
  simp only [readPL, readRegister_eq]
  split <;> rfl

theorem available_eq (d : MMA8451Q) (w : TwoWire) :
    available d w = some (toByte (((w.regs STATUS).val &&& 0x08) >>> 3), w.afterRead STATUS 1) := by
  simp [available, readRegister_eq]

end MMA8451Q

namespace MMA8451Q

/-- The fields of the driver and of the bus after `read`, one by one. -/
theorem read_fields (d : MMA8451Q) (w : TwoWire) :
    ∃ d' w', read d w = some (d', w')
      ∧ d'.x = combineShift INT_BITS (w.regs OUT_X_MSB) (w.regs OUT_X_LSB)
      ∧ d'.y = combineShift INT_BITS (w.regs OUT_Y_MSB) (w.regs OUT_Y_LSB)
      ∧ d'.z = combineShift INT_BITS (w.regs OUT_Z_MSB) (w.regs OUT_Z_LSB)
      ∧ d'.cx = calibrate d'.x d.scale
      ∧ d'.cy = calibrate d'.y d.scale
      ∧ d'.cz = calibrate d'.z d.scale
      ∧ d'.address = d.address ∧ d'.scale = d.scale
      ∧ w'.regs = w.regs ∧ w'.writes = w.writes := by
  refine ⟨_, _, read_eq d w, ?_⟩
  dsimp only
  simp only [and_self, TwoWire.afterRead]

/-! ## Claims -/

set_option maxRecDepth 100000 in
/-- What `setODR` leaves in `CTRL_REG1`, bit by bit: bits 4-5 are bits 1-2 of the rate
code, bit 3 is the or of the old bit 3 and bit 0 of the rate code, and bits 0-2 and 6-7
are the old ones. -/
theorem setODR_ctrl_bits (d : MMA8451Q) (w : TwoWire) (odr : MMA8451Q_ODR) :
    ∃ w', setODR d w odr = some w'
      ∧ (w'.regs CTRL_REG1).val &&& 0x30 = (odr.toNat <<< 3) &&& 0x30
      ∧ (w'.regs CTRL_REG1).val &&& 0x08
          = ((w.regs CTRL_REG1).val &&& 0x08) ||| ((odr.toNat <<< 3) &&& 0x08)
      ∧ (w'.regs CTRL_REG1).val &&& 0xC7 = (w.regs CTRL_REG1).val &&& 0xC7 := by
  refine ⟨_, setODR_eq d w odr, ?_⟩
  rw [writeRegister_regs, Function.update_same]
  show _ ∧ (_ = ((w.regs CTRL_REG1).val &&& 0x08) ||| _) ∧ (_ = (w.regs CTRL_REG1).val &&& 0xC7)
  generalize w.regs CTRL_REG1 = c
  cases odr <;> revert c <;> decide

set_option maxRecDepth 100000 in
/-- C1 (defect of the code): on a control register holding 0x08 (bit 3 set, the rate
code of 400 Hz) the call `setODR(ODR_800)` returns with `CTRL_REG1` still 0x08: bits 3-5
read 1, not the requested rate code 0, because the mask `0xCF` clears bits 4-5 only. -/
theorem setODR_keeps_stale_bit3 :
    ∃ w', setODR (MMA8451Q.new 0x1C)
        (TwoWire.ofRegs (Function.update (fun _ => (0 : Byte)) CTRL_REG1 0x08))
          MMA8451Q_ODR.ODR_800 = some w'
      ∧ w'.regs CTRL_REG1 = 0x08
      ∧ ((w'.regs CTRL_REG1).val >>> 3) &&& 7 = 1
      ∧ MMA8451Q_ODR.ODR_800.toNat = 0 := by
  refine ⟨_, setODR_eq _ _ _, ?_⟩
  rw [writeRegister_regs, Function.update_same]
  have h : (TwoWire.ofRegs (Function.update (fun _ => (0 : Byte)) CTRL_REG1 0x08)).regs
      CTRL_REG1 = 0x08 := by
    simp [TwoWire.ofRegs]
  rw [h]
  decide

set_option maxRecDepth 100000 in
/-- C2 (defect of the code): with the X data bytes `0xC0, 0x00` and the scale 2g, `read`
stores the raw value 12288 and the calibrated value 3.0, whereas the signed 16-bit
reading of `0xC000` shifted right by 2 is -4096 (calibrated -1.0). -/
theorem read_top_bit_sample_unsigned :
    ∃ d' w', read (MMA8451Q.new 0x1C)
        (TwoWire.ofRegs (Function.update (fun _ => (0 : Byte)) OUT_X_MSB 0xC0)) = some (d', w')
      ∧ d'.scale = MMA8451Q_Scale.SCALE_2G
      ∧ d'.x = 12288
      ∧ d'.cx = 3
      ∧ (wrapInt 16 (0xC0 * 256 + 0x00)) >>> 2 = -4096 := by
  have hm : (TwoWire.ofRegs (Function.update (fun _ => (0 : Byte)) OUT_X_MSB 0xC0)).regs
      OUT_X_MSB = 0xC0 := by
    simp [TwoWire.ofRegs]
  have hl : (TwoWire.ofRegs (Function.update (fun _ => (0 : Byte)) OUT_X_MSB 0xC0)).regs
      OUT_X_LSB = 0x00 := by
    simp [TwoWire.ofRegs, Function.update, OUT_X_MSB, OUT_X_LSB]
  have hx : combineShift INT_BITS 0xC0 0x00 = 12288 := by
    rw [combineShift_32]
    decide
  obtain ⟨d', w', h, h1, -, -, h4, -, -, -, h8, -, -⟩ := read_fields (MMA8451Q.new 0x1C)
    (TwoWire.ofRegs (Function.update (fun _ => (0 : Byte)) OUT_X_MSB 0xC0))
  rw [hm, hl, hx] at h1
  refine ⟨d', w', h, h8, h1, ?_, by decide⟩
  rw [h4, h1, calibrate_exact 12288 _ (by norm_num)]
  norm_num [MMA8451Q.new, MMA8451Q_Scale.toNat]

end MMA8451Q

namespace MMA8451Q

/-- On an identity mismatch `init` stops after the one register read. -/
theorem init_mismatch_eq (d : MMA8451Q) (w : TwoWire) (fsr : MMA8451Q_Scale) (odr : MMA8451Q_ODR)
    (h : w.regs WHO_AM_I ≠ 0x1A) :
    init d w fsr odr = some (0, { d with scale := fsr }, w.begin.afterRead WHO_AM_I 1) := by
  have h1 : w.begin.regs WHO_AM_I ≠ 0x1A := h
  simp only [init, readRegister_eq]
  rw [if_pos h1]

/-- On an identity match `init` runs the six configuration steps in order, each of
which returns, and reports success. -/
theorem init_match_eq (d : MMA8451Q) (w : TwoWire) (fsr : MMA8451Q_Scale) (odr : MMA8451Q_ODR)
    (h : w.regs WHO_AM_I = 0x1A) :
    ∃ w2 w3 w4 w5 w7,
      standby { d with scale := fsr } (w.begin.afterRead WHO_AM_I 1) = some w2
      ∧ setScale { d with scale := fsr } w2 fsr = some w3
      ∧ setODR { d with scale := fsr } w3 odr = some w4
      ∧ setupPL { d with scale := fsr } w4 = some w5
      ∧ active { d with scale := fsr } (setupTap { d with scale := fsr } w5 0x80 0x80 0x08)
          = some w7
      ∧ init d w fsr odr = some (1, { d with scale := fsr }, w7) := by
  have h1 : ¬ (w.begin.regs WHO_AM_I ≠ 0x1A) := not_not.2 h
  refine ⟨_, _, _, _, _, standby_eq _ _, setScale_eq _ _ _, setODR_eq _ _ _, setupPL_eq _ _,
    active_eq _ _, ?_⟩
  simp only [init, readRegister_eq]
  rw [if_neg h1]
  simp only [standby_eq, setScale_eq, setODR_eq, setupPL_eq, active_eq]

end MMA8451Q

namespace MMA8451Q

/-- Register file and write log after `standby`. -/
theorem standby_spec (d : MMA8451Q) (w : TwoWire) :
    ∃ w', standby d w = some w'
      ∧ w'.regs = Function.update w.regs CTRL_REG1 (toByte ((w.regs CTRL_REG1).val &&& 0xFE))
      ∧ w'.writes = w.writes ++ [(CTRL_REG1, toByte ((w.regs CTRL_REG1).val &&& 0xFE))] := by
  refine ⟨_, standby_eq d w, ?_, ?_⟩
  · rw [writeRegister_regs, land_not_one, clear_bit0_eq]
    rfl
  · rw [writeRegister_writes, land_not_one, clear_bit0_eq]
    rfl

/-- Register file and write log after `active`. -/
theorem active_spec (d : MMA8451Q) (w : TwoWire) :
    ∃ w', active d w = some w'
      ∧ w'.regs = Function.update w.regs CTRL_REG1 (toByte ((w.regs CTRL_REG1).val ||| 0x01))
      ∧ w'.writes = w.writes ++ [(CTRL_REG1, toByte ((w.regs CTRL_REG1).val ||| 0x01))] := by
  refine ⟨_, active_eq d w, ?_, ?_⟩
  · rw [writeRegister_regs]
    rfl
  · rw [writeRegister_writes]
    rfl

/-- Register file and write log after `setScale`. -/
theorem setScale_spec (d : MMA8451Q) (w : TwoWire) (fsr : MMA8451Q_Scale) :
    ∃ w', setScale d w fsr = some w'
      ∧ w'.regs = Function.update w.regs XYZ_DATA_CFG
          (toByte ((toByte ((w.regs XYZ_DATA_CFG).val &&& 0xFC)).val ||| (fsr.toNat >>> 2)))
      ∧ w'.writes = w.writes ++ [(XYZ_DATA_CFG,
          toByte ((toByte ((w.regs XYZ_DATA_CFG).val &&& 0xFC)).val ||| (fsr.toNat >>> 2)))] := by
  refine ⟨_, setScale_eq d w fsr, ?_, ?_⟩
  · rw [writeRegister_regs]
    rfl
  · rw [writeRegister_writes]
    rfl

/-- Register file and write log after `setODR`. -/
theorem setODR_spec (d : MMA8451Q) (w : TwoWire) (odr : MMA8451Q_ODR) :
    ∃ w', setODR d w odr = some w'
      ∧ w'.regs = Function.update w.regs CTRL_REG1
          (toByte ((toByte ((w.regs CTRL_REG1).val &&& 0xCF)).val ||| (odr.toNat <<< 3)))
      ∧ w'.writes = w.writes ++ [(CTRL_REG1,
          toByte ((toByte ((w.regs CTRL_REG1).val &&& 0xCF)).val ||| (odr.toNat <<< 3)))] := by
  refine ⟨_, setODR_eq d w odr, ?_, ?_⟩
  · rw [writeRegister_regs]
    rfl
  · rw [writeRegister_writes]
    rfl

/-- Register file and write log after `setupPL`. -/
theorem setupPL_spec (d : MMA8451Q) (w : TwoWire) :
    ∃ w', setupPL d w = some w'
      ∧ w'.regs = Function.update
          (Function.update w.regs PL_CFG (toByte ((w.regs PL_CFG).val ||| 0x40))) PL_COUNT 0x50
      ∧ w'.writes = w.writes ++
          [(PL_CFG, toByte ((w.regs PL_CFG).val ||| 0x40)), (PL_COUNT, 0x50)] := by
  refine ⟨_, setupPL_eq d w, ?_, ?_⟩
  · rw [writeRegister_regs, writeRegister_regs]
    rfl
  · rw [writeRegister_writes, writeRegister_writes, List.append_assoc]
    rfl

/-- The threshold writes of `setupTap`: one for each axis whose threshold byte has
bit 7 clear, in the order X, Y, Z. -/
theorem setupTap_spec (d : MMA8451Q) (w : TwoWire) (xThs yThs zThs : Byte) :
    (setupTap d w xThs yThs zThs).regs =
        Function.update (Function.update (Function.update (Function.update
          (if zThs.val &&& 0x80 = 0 then Function.update
            (if yThs.val &&& 0x80 = 0 then Function.update
              (if xThs.val &&& 0x80 = 0 then Function.update w.regs PULSE_THSX xThs else w.regs)
              PULSE_THSY yThs
             else
              (if xThs.val &&& 0x80 = 0 then Function.update w.regs PULSE_THSX xThs else w.regs))
            PULSE_THSZ zThs
           else
            (if yThs.val &&& 0x80 = 0 then Function.update
              (if xThs.val &&& 0x80 = 0 then Function.update w.regs PULSE_THSX xThs else w.regs)
              PULSE_THSY yThs
             else
              (if xThs.val &&& 0x80 = 0 then Function.update w.regs PULSE_THSX xThs else w.regs)))
          PULSE_CFG (toByte (0x40 ||| (if xThs.val &&& 0x80 = 0 then 0x03 else 0)
            ||| (if yThs.val &&& 0x80 = 0 then 0x0C else 0)
            ||| (if zThs.val &&& 0x80 = 0 then 0x30 else 0))))
          PULSE_TMLT 0x30) PULSE_LTCY 0xA0) PULSE_WIND 0xFF
      ∧ (setupTap d w xThs yThs zThs).writes = w.writes ++
          ((if xThs.val &&& 0x80 = 0 then [(PULSE_THSX, xThs)] else []) ++
           (if yThs.val &&& 0x80 = 0 then [(PULSE_THSY, yThs)] else []) ++
           (if zThs.val &&& 0x80 = 0 then [(PULSE_THSZ, zThs)] else []) ++
           [(PULSE_CFG, toByte (0x40 ||| (if xThs.val &&& 0x80 = 0 then 0x03 else 0)
              ||| (if yThs.val &&& 0x80 = 0 then 0x0C else 0)
              ||| (if zThs.val &&& 0x80 = 0 then 0x30 else 0))),
            (PULSE_TMLT, 0x30), (PULSE_LTCY, 0xA0), (PULSE_WIND, 0xFF)]) := by
  by_cases hx : xThs.val &&& 0x80 = 0 <;> by_cases hy : yThs.val &&& 0x80 = 0 <;>
    by_cases hz : zThs.val &&& 0x80 = 0 <;>
    simp only [setupTap, hx, hy, hz, if_true, if_false, writeRegister_regs,
      writeRegister_writes, List.append_assoc, List.nil_append, List.cons_append,
      List.append_nil] <;>
    exact ⟨rfl, rfl⟩

end MMA8451Q

namespace MMA8451Q

set_option maxRecDepth 100000 in
/-- The byte `standby` writes has bit 0 clear. -/
theorem standby_byte_bit0 : ∀ c : Byte, (toByte (c.val &&& 0xFE)).val &&& 1 = 0 := by
  decide

set_option maxRecDepth 100000 in
/-- The byte `active` writes has bit 0 set. -/
theorem active_byte_bit0 : ∀ c : Byte, (toByte (c.val ||| 0x01)).val &&& 1 = 1 := by
  decide

set_option maxRecDepth 100000 in
/-- The byte `setODR` writes has the bit 0 of the byte it read. -/
theorem setODR_byte_bit0 (odr : MMA8451Q_ODR) : ∀ c : Byte,
    (toByte ((toByte (c.val &&& 0xCF)).val ||| (odr.toNat <<< 3))).val &&& 1 = c.val &&& 1 := by
  cases odr <;> decide

/-- The register file a successful `init` leaves behind: the twelve register writes of
the six configuration steps, applied in order to the file it found. -/
theorem init_match_regs (d : MMA8451Q) (w : TwoWire) (fsr : MMA8451Q_Scale) (odr : MMA8451Q_ODR)
    (h : w.regs WHO_AM_I = 0x1A) :
    ∃ w' a b c e f, init d w fsr odr = some (1, { d with scale := fsr }, w')
      ∧ w'.regs = Function.update (Function.update (Function.update (Function.update
          (Function.update (Function.update (Function.update (Function.update (Function.update
          (Function.update (Function.update w.regs
            CTRL_REG1 a) XYZ_DATA_CFG b) CTRL_REG1 c) PL_CFG e) PL_COUNT 0x50)
            PULSE_THSZ 0x08) PULSE_CFG 0x70) PULSE_TMLT 0x30) PULSE_LTCY 0xA0) PULSE_WIND 0xFF)
            CTRL_REG1 f
      ∧ a.val &&& 1 = 0 ∧ c.val &&& 1 = 0 ∧ f.val &&& 1 = 1 := by
  obtain ⟨w2, w3, w4, w5, w7, e2, e3, e4, e5, e7, e⟩ := init_match_eq d w fsr odr h
  obtain ⟨w2', e2', r2, -⟩ := standby_spec { d with scale := fsr } (w.begin.afterRead WHO_AM_I 1)
  rw [e2] at e2'
  cases e2'
  obtain ⟨w3', e3', r3, -⟩ := setScale_spec { d with scale := fsr } w2 fsr
  rw [e3] at e3'
  cases e3'
  obtain ⟨w4', e4', r4, -⟩ := setODR_spec { d with scale := fsr } w3 odr
  rw [e4] at e4'
  cases e4'
  obtain ⟨w5', e5', r5, -⟩ := setupPL_spec { d with scale := fsr } w4
  rw [e5] at e5'
  cases e5'
  obtain ⟨w7', e7', r7, -⟩ := active_spec { d with scale := fsr }
    (setupTap { d with scale := fsr } w5 0x80 0x80 0x08)
  rw [e7] at e7'
  cases e7'
  have r6 := (setupTap_spec { d with scale := fsr } w5 0x80 0x80 0x08).1
  have hx : ¬ ((0x80 : Byte).val &&& 0x80 = 0) := by decide
  have hz : (0x08 : Byte).val &&& 0x80 = 0 := by decide
  simp only [hx, hz, if_true, if_false] at r6
  have hcfg : toByte (0x40 ||| 0 ||| 0 ||| 0x30) = 0x70 := by decide
  rw [hcfg] at r6
  have r1 : (w.begin.afterRead WHO_AM_I 1).regs = w.regs := rfl
  rw [r6, r5, r4, r3, r2, r1] at r7
  refine ⟨w7, _, _, _, _, _, e, r7, standby_byte_bit0 _, ?_, active_byte_bit0 _⟩
  rw [setODR_byte_bit0]
  have hne : CTRL_REG1 ≠ XYZ_DATA_CFG := by decide
  rw [Function.update_noteq hne, Function.update_same]
  exact standby_byte_bit0 _

end MMA8451Q

namespace MMA8451Q

set_option maxRecDepth 100000 in
/-- C4: for each of the three ranges and every prior value of `XYZ_DATA_CFG`, `setScale`
returns with the two low bits of the register equal to `r >> 2` (0 for 2g, 1 for 4g,
2 for 8g) and with bits 2-7 as they were. -/
theorem setScale_low_two_bits (d : MMA8451Q) (w : TwoWire) (r : MMA8451Q_Scale) :
    ∃ w', setScale d w r = some w'
      ∧ (w'.regs XYZ_DATA_CFG).val &&& 0x03 = r.toNat >>> 2
      ∧ (w'.regs XYZ_DATA_CFG).val &&& 0xFC = (w.regs XYZ_DATA_CFG).val &&& 0xFC
      ∧ MMA8451Q_Scale.SCALE_2G.toNat >>> 2 = 0
      ∧ MMA8451Q_Scale.SCALE_4G.toNat >>> 2 = 1
      ∧ MMA8451Q_Scale.SCALE_8G.toNat >>> 2 = 2 := by
  obtain ⟨w', hs, hr, -⟩ := setScale_spec d w r
  refine ⟨w', hs, ?_⟩
  rw [hr, Function.update_same]
  generalize w.regs XYZ_DATA_CFG = c
  cases r <;> revert c <;> decide

/-- C5: when the identity register reads anything but 0x1A, `init` returns 0, the
register file is the one it found and the write log has no new entry. -/
theorem init_identity_mismatch (d : MMA8451Q) (w : TwoWire) (fsr : MMA8451Q_Scale)
    (odr : MMA8451Q_ODR) (h : w.regs WHO_AM_I ≠ 0x1A) :
    ∃ d' w', init d w fsr odr = some (0, d', w') ∧ w'.regs = w.regs ∧ w'.writes = w.writes :=
  ⟨_, _, init_mismatch_eq d w fsr odr h, rfl, rfl⟩

/-- C5 (witness): a sensor whose registers are all zero does not identify as 0x1A. -/
theorem init_identity_mismatch_witness :
    ∃ d' w', init (MMA8451Q.new 0x1C) (TwoWire.ofRegs (fun _ => 0)) MMA8451Q_Scale.SCALE_2G
        MMA8451Q_ODR.ODR_800 = some (0, d', w')
      ∧ w'.regs = (TwoWire.ofRegs (fun _ => 0)).regs
      ∧ w'.writes = (TwoWire.ofRegs (fun _ => 0)).writes :=
  init_identity_mismatch (MMA8451Q.new 0x1C) (TwoWire.ofRegs (fun _ => 0))
    MMA8451Q_Scale.SCALE_2G MMA8451Q_ODR.ODR_800 (by decide)

/-- C6: when the identity register reads 0x1A, `init` returns 1 and bit 0 of `CTRL_REG1`
is set on return; and `init` returns 1 only when the identity register reads 0x1A. -/
theorem init_success_active (d : MMA8451Q) (w : TwoWire) (fsr : MMA8451Q_Scale)
    (odr : MMA8451Q_ODR) :
    (w.regs WHO_AM_I = 0x1A →
        ∃ d' w', init d w fsr odr = some (1, d', w') ∧ (w'.regs CTRL_REG1).val &&& 1 = 1)
    ∧ (∀ d' w', init d w fsr odr = some (1, d', w') → w.regs WHO_AM_I = 0x1A) := by
  constructor
  · intro h
    obtain ⟨w', a, b, c, e, f, hi, hr, -, -, hf⟩ := init_match_regs d w fsr odr h
    refine ⟨_, w', hi, ?_⟩
    rw [hr, Function.update_same]
    exact hf
  · intro d' w' hi
    by_contra h
    rw [init_mismatch_eq d w fsr odr h] at hi
    have h01 : (0 : Byte) = 1 := congrArg Prod.fst (Option.some.inj hi)
    exact absurd h01 (by decide)

/-- C6 (witness): a sensor that identifies as 0x1A and is otherwise zero. -/
theorem init_success_active_witness :
    ∃ d' w', init (MMA8451Q.new 0x1C)
        (TwoWire.ofRegs (Function.update (fun _ => (0 : Byte)) WHO_AM_I 0x1A))
        MMA8451Q_Scale.SCALE_4G MMA8451Q_ODR.ODR_100 = some (1, d', w')
      ∧ (w'.regs CTRL_REG1).val &&& 1 = 1 :=
  (init_success_active (MMA8451Q.new 0x1C)
    (TwoWire.ofRegs (Function.update (fun _ => (0 : Byte)) WHO_AM_I 0x1A))
    MMA8451Q_Scale.SCALE_4G MMA8451Q_ODR.ODR_100).1 (by simp [TwoWire.ofRegs])

end MMA8451Q

namespace MMA8451Q

/-- C7: `read` returns, takes X from the data bytes 0-1, Y from bytes 2-3 and Z from
bytes 4-5, high byte first, and sets every calibrated value to exactly
`raw / 8192 * s` for the stored scale `s`; X bytes `0x20, 0x00` give raw 2048 and, at
the scale 4g, calibrated 1. -/
theorem read_decodes_and_calibrates (d : MMA8451Q) (w : TwoWire) :
    ∃ d' w', read d w = some (d', w')
      ∧ d'.x = ((((w.regs OUT_X_MSB).val * 256 + (w.regs OUT_X_LSB).val) / 4 : Nat) : Int)
      ∧ d'.y = ((((w.regs OUT_Y_MSB).val * 256 + (w.regs OUT_Y_LSB).val) / 4 : Nat) : Int)
      ∧ d'.z = ((((w.regs OUT_Z_MSB).val * 256 + (w.regs OUT_Z_LSB).val) / 4 : Nat) : Int)
      ∧ d'.cx = (d'.x : ℚ) / 8192 * (d.scale.toNat : ℚ)
      ∧ d'.cy = (d'.y : ℚ) / 8192 * (d.scale.toNat : ℚ)
      ∧ d'.cz = (d'.z : ℚ) / 8192 * (d.scale.toNat : ℚ)
      ∧ (w.regs OUT_X_MSB = 0x20 → w.regs OUT_X_LSB = 0x00 →
          d'.x = 2048 ∧ (d.scale = MMA8451Q_Scale.SCALE_4G → d'.cx = 1)) := by
  obtain ⟨d', w', hrd, hx, hy, hz, hcx, hcy, hcz, -, -, -, -⟩ := read_fields d w
  have ex : d'.cx = (d'.x : ℚ) / 8192 * (d.scale.toNat : ℚ) := by
    rw [hcx, hx]
    exact calibrate_combineShift _ _ _
  have ey : d'.cy = (d'.y : ℚ) / 8192 * (d.scale.toNat : ℚ) := by
    rw [hcy, hy]
    exact calibrate_combineShift _ _ _
  have ez : d'.cz = (d'.z : ℚ) / 8192 * (d.scale.toNat : ℚ) := by
    rw [hcz, hz]
    exact calibrate_combineShift _ _ _
  rw [combineShift_32] at hx hy hz
  refine ⟨d', w', hrd, hx, hy, hz, ex, ey, ez, ?_⟩
  intro hm hl
  have h2048 : d'.x = 2048 := by
    rw [hx, hm, hl]
    decide
  refine ⟨h2048, ?_⟩
  intro hs
  rw [ex, h2048, hs]
  norm_num [MMA8451Q_Scale.toNat]

/-- C7 (witness): the X bytes `0x20, 0x00` at the scale 4g. -/
theorem read_decodes_and_calibrates_witness :
    ∃ d' w', read { MMA8451Q.new 0x1C with scale := MMA8451Q_Scale.SCALE_4G }
        (TwoWire.ofRegs (Function.update (fun _ => (0 : Byte)) OUT_X_MSB 0x20)) = some (d', w')
      ∧ d'.x = 2048 ∧ d'.cx = 1 := by
  obtain ⟨d', w', hrd, -, -, -, -, -, -, hp⟩ := read_decodes_and_calibrates
    { MMA8451Q.new 0x1C with scale := MMA8451Q_Scale.SCALE_4G }
    (TwoWire.ofRegs (Function.update (fun _ => (0 : Byte)) OUT_X_MSB 0x20))
  have hm : (TwoWire.ofRegs (Function.update (fun _ => (0 : Byte)) OUT_X_MSB 0x20)).regs
      OUT_X_MSB = 0x20 := by
    simp [TwoWire.ofRegs]
  have hl : (TwoWire.ofRegs (Function.update (fun _ => (0 : Byte)) OUT_X_MSB 0x20)).regs
      OUT_X_LSB = 0x00 := by
    simp [TwoWire.ofRegs, Function.update, OUT_X_MSB, OUT_X_LSB]
  exact ⟨d', w', hrd, (hp hm hl).1, (hp hm hl).2 rfl⟩

set_option maxRecDepth 100000 in
/-- C9: `readPL` returns; with bit 6 of the status set the result is `LOCKOUT` whatever
the other bits are; with bit 6 clear the result is `(s & 0x06) >> 1`, a value below 4
that is a function of bits 1-2 alone and differs from `LOCKOUT` (the header constant,
0x40). -/
theorem readPL_lockout_or_code (d : MMA8451Q) (w : TwoWire) :
    ∃ r w', readPL d w = some (r, w')
      ∧ ((w.regs PL_STATUS).val &&& 0x40 ≠ 0 → r = LOCKOUT)
      ∧ ((w.regs PL_STATUS).val &&& 0x40 = 0 →
          r.val = ((w.regs PL_STATUS).val &&& 0x06) >>> 1 ∧ r.val < 4 ∧ r ≠ LOCKOUT) := by
  refine ⟨_, _, readPL_eq d w, ?_⟩
  generalize w.regs PL_STATUS = s
  revert s
  decide

set_option maxRecDepth 100000 in
/-- C10: `readTap` returns `s & 0x7F` when bit 7 of the tap-source byte `s` is set and 0
when it is clear; the result is below 128; the byte 0x81 yields 0x01 and the byte 0x01
yields 0. -/
theorem readTap_low_seven_bits (d : MMA8451Q) (w : TwoWire) :
    ∃ r w', readTap d w = some (r, w')
      ∧ ((w.regs PULSE_SRC).val &&& 0x80 ≠ 0 → r.val = (w.regs PULSE_SRC).val &&& 0x7F)
      ∧ ((w.regs PULSE_SRC).val &&& 0x80 = 0 → r = 0)
      ∧ r.val < 128
      ∧ (w.regs PULSE_SRC = 0x81 → r = 0x01)
      ∧ (w.regs PULSE_SRC = 0x01 → r = 0) := by
  refine ⟨_, _, readTap_eq d w, ?_⟩
  generalize w.regs PULSE_SRC = s
  revert s
  decide

end MMA8451Q

/-! ## Multi-byte transfers -/

namespace TwoWire

/-- Queuing a list of bytes appends it to the transmit buffer. -/
theorem foldl_write_eq (bs : List Byte) (w : TwoWire) :
    bs.foldl (fun acc b => acc.write b) w = { w with txBuffer := w.txBuffer ++ bs } := by
  induction bs generalizing w with
  | nil => simp
  | cons b bs ih =>
    rw [List.foldl_cons, ih]
    simp [write]

/-- Storing a list of bytes leaves both buffers alone. -/
theorem foldl_store_buffers (bs : List Byte) (w : TwoWire) :
    (bs.foldl store w).txBuffer = w.txBuffer ∧ (bs.foldl store w).rxBuffer = w.rxBuffer := by
  induction bs generalizing w with
  | nil => exact ⟨rfl, rfl⟩
  | cons b bs ih =>
    rw [List.foldl_cons]
    exact ih (store w b)

/-- Storing a list of bytes leaves every register outside the addressed range alone. -/
theorem foldl_store_regs_of_ne (bs : List Byte) (w : TwoWire) (a : Byte)
    (h : ∀ j, j < bs.length → toByte (w.ptr.val + j) ≠ a) :
    (bs.foldl store w).regs a = w.regs a := by
  induction bs generalizing w with
  | nil => rfl
  | cons b bs ih =>
    rw [List.foldl_cons, ih]
    · have h0 : w.ptr ≠ a := by
        have := h 0 (by simp)
        rwa [Nat.add_zero, toByte_val] at this
      exact Function.update_noteq (Ne.symm h0) _ _
    · intro j hj
      have := h (j + 1) (by simpa using hj)
      intro e
      apply this
      rw [← e]
      apply Fin.ext
      simp only [store, toByte]
      omega

/-- Storing at most 256 bytes puts byte `i` of the list at the register `i` places
after the register pointer (modulo 256). -/
theorem foldl_store_regs_get (bs : List Byte) (w : TwoWire) (hlen : bs.length ≤ 256)
    (i : Nat) (hi : i < bs.length) :
    (bs.foldl store w).regs (toByte (w.ptr.val + i)) = bs.get ⟨i, hi⟩ := by
  induction bs generalizing w i with
  | nil => exact absurd hi (by simp)
  | cons b bs ih =>
    rw [List.foldl_cons]
    have hl : bs.length ≤ 255 := by
      simp only [List.length_cons] at hlen
      omega
    cases i with
    | zero =>
      rw [Nat.add_zero, toByte_val, foldl_store_regs_of_ne]
      · simp [store]
      · intro j hj e
        have hp := w.ptr.isLt
        have := congrArg Fin.val e
        simp only [store, toByte] at this
        omega
    | succ i =>
      have hi' : i < bs.length := by simpa using hi
      have := ih (store w b) (by omega) i hi'
      have e : toByte ((store w b).ptr.val + i) = toByte (w.ptr.val + (i + 1)) := by
        apply Fin.ext
        simp only [store, toByte]
        omega
      rw [e] at this
      rw [this]
      rfl

end TwoWire

namespace MMA8451Q

/-- A multi-byte write sets the register pointer and stores the bytes in order. -/
theorem writeRegisters_eq (d : MMA8451Q) (w : TwoWire) (reg : Byte) (bs : List Byte) :
    writeRegisters d w reg bs = bs.foldl TwoWire.store { w with ptr := reg, txBuffer := [] } := by
  simp only [writeRegisters]
  rw [TwoWire.foldl_write_eq]
  simp [TwoWire.beginTransmission, TwoWire.write, TwoWire.endTransmission]

/-- The read loop empties a receive buffer of the length it is run for. -/
theorem readLoop_eq (l : List Byte) (w : TwoWire) (h : w.rxBuffer = l) :
    readLoop l.length w = (l, { w with rxBuffer := [] }) := by
  induction l generalizing w with
  | nil =>
    cases w
    simp only at h
    subst h
    rfl
  | cons b l ih =>
    have e : w.read = ((b.val : Int), { w with rxBuffer := l }) := by
      simp [TwoWire.read, h]
    simp only [List.length_cons, readLoop, e, intToByte_val]
    rw [ih { w with rxBuffer := l } rfl]

/-- A multi-byte read returns the registers from `reg` on, in order, and never hangs
on the simulated bus. -/
theorem readRegisters_eq (d : MMA8451Q) (w : TwoWire) (reg : Byte) (n : Nat) :
    readRegisters d w reg n =
      some ((List.range n).map (fun i => w.regs (toByte (reg.val + i))), w.afterRead reg n) := by
  have hl : ((List.range n).map (fun i => w.regs (toByte (reg.val + i)))).length = n := by
    simp
  have h := readLoop_eq ((List.range n).map (fun i => w.regs (toByte (reg.val + i))))
    { w with ptr := toByte (reg.val + n), txBuffer := [],
             rxBuffer := (List.range n).map (fun i => w.regs (toByte (reg.val + i))) } rfl
  rw [hl] at h
  simp only [readRegisters, TwoWire.beginTransmission, TwoWire.write, TwoWire.endTransmission,
    TwoWire.requestFrom, TwoWire.available, List.nil_append, List.foldl_nil, hl,
    lt_irrefl, if_false, h, TwoWire.afterRead]

end MMA8451Q

namespace MMA8451Q

/-- C11: on the simulated register file a register write followed by a read of the same
register returns the written byte; and a write of the bytes `bs` from register `reg` on,
followed by a read of as many bytes from `reg` on, returns `bs` in the same order. The
count `len` of both multi-byte operations is a `byte`, so `bs` has fewer than 256
bytes; the register pointer advances modulo 256 and the buffers of the simulated bus
hold any number of bytes. -/
theorem write_then_read_roundtrip (d : MMA8451Q) (w : TwoWire) (reg v : Byte) (bs : List Byte)
    (hlen : bs.length < 256) :
    (∃ w', readRegister d (writeRegister d w reg v) reg = some (v, w'))
    ∧ (∃ w', readRegisters d (writeRegisters d w reg bs) reg bs.length = some (bs, w')) := by
  constructor
  · refine ⟨(writeRegister d w reg v).afterRead reg 1, ?_⟩
    rw [readRegister_eq, writeRegister_regs, Function.update_same]
  · refine ⟨(writeRegisters d w reg bs).afterRead reg bs.length, ?_⟩
    rw [readRegisters_eq]
    have hb : (List.range bs.length).map
        (fun i => (writeRegisters d w reg bs).regs (toByte (reg.val + i))) = bs := by
      apply List.ext_get
      · simp
      · intro i h1 h2
        rw [List.get_eq_getElem, List.getElem_map, List.getElem_range]
        show (writeRegisters d w reg bs).regs (toByte (reg.val + i)) = bs.get ⟨i, h2⟩
        rw [writeRegisters_eq]
        exact TwoWire.foldl_store_regs_get bs { w with ptr := reg, txBuffer := [] }
          (by omega) i h2
    rw [hb]

/-- C11 (witness): three bytes written from register 0xFE on, so that the register
pointer wraps to 0x00, and read back. -/
theorem write_then_read_roundtrip_witness :
    (∃ w', readRegister (MMA8451Q.new 0x1C)
        (writeRegister (MMA8451Q.new 0x1C) (TwoWire.ofRegs (fun _ => 0)) 0xFE 0x5A) 0xFE
          = some (0x5A, w'))
    ∧ (∃ w', readRegisters (MMA8451Q.new 0x1C)
        (writeRegisters (MMA8451Q.new 0x1C) (TwoWire.ofRegs (fun _ => 0)) 0xFE [0x11, 0x22, 0x33])
          0xFE 3 = some ([0x11, 0x22, 0x33], w')) :=
  write_then_read_roundtrip (MMA8451Q.new 0x1C) (TwoWire.ofRegs (fun _ => 0)) 0xFE 0x5A
    [0x11, 0x22, 0x33] (by decide)

/-- C12: `setupTap` enables an axis exactly when bit 7 of its threshold byte is clear:
`PULSE_CFG` becomes 0x40 or-ed with 0x03, 0x0C and 0x30 for the enabled axes X, Y and Z,
so its bit 6 is set and its bit 7 clear; the threshold register of an enabled axis
holds its threshold byte and that of a disabled axis is untouched; `PULSE_TMLT`,
`PULSE_LTCY` and `PULSE_WIND` hold 0x30, 0xA0 and 0xFF. -/
theorem setupTap_registers (d : MMA8451Q) (w : TwoWire) (xThs yThs zThs : Byte) :
    ((setupTap d w xThs yThs zThs).regs PULSE_CFG).val
        = 0x40 ||| (if xThs.val &&& 0x80 = 0 then 0x03 else 0)
            ||| (if yThs.val &&& 0x80 = 0 then 0x0C else 0)
            ||| (if zThs.val &&& 0x80 = 0 then 0x30 else 0)
    ∧ ((setupTap d w xThs yThs zThs).regs PULSE_CFG).val &&& 0x40 = 0x40
    ∧ ((setupTap d w xThs yThs zThs).regs PULSE_CFG).val &&& 0x80 = 0
    ∧ (setupTap d w xThs yThs zThs).regs PULSE_THSX
        = (if xThs.val &&& 0x80 = 0 then xThs else w.regs PULSE_THSX)
    ∧ (setupTap d w xThs yThs zThs).regs PULSE_THSY
        = (if yThs.val &&& 0x80 = 0 then yThs else w.regs PULSE_THSY)
    ∧ (setupTap d w xThs yThs zThs).regs PULSE_THSZ
        = (if zThs.val &&& 0x80 = 0 then zThs else w.regs PULSE_THSZ)
    ∧ (setupTap d w xThs yThs zThs).regs PULSE_TMLT = 0x30
    ∧ (setupTap d w xThs yThs zThs).regs PULSE_LTCY = 0xA0
    ∧ (setupTap d w xThs yThs zThs).regs PULSE_WIND = 0xFF := by
  rw [(setupTap_spec d w xThs yThs zThs).1]
  by_cases hx : xThs.val &&& 0x80 = 0 <;> by_cases hy : yThs.val &&& 0x80 = 0 <;>
    by_cases hz : zThs.val &&& 0x80 = 0 <;>
    simp only [hx, hy, hz, if_true, if_false] <;>
    simp [Function.update, PULSE_CFG, PULSE_THSX, PULSE_THSY, PULSE_THSZ, PULSE_TMLT,
      PULSE_LTCY, PULSE_WIND, toByte] <;>
    decide

end MMA8451Q

namespace MMA8451Q

set_option maxRecDepth 100000 in
/-- Clearing or setting bit 0 twice, or one after the other, is the later step alone. -/
theorem bit0_bytes : ∀ c : Byte,
    (toByte (c.val &&& 0xFE)).val = c.val &&& 0xFE
    ∧ (toByte (c.val ||| 0x01)).val = c.val ||| 0x01
    ∧ toByte ((toByte (c.val &&& 0xFE)).val &&& 0xFE) = toByte (c.val &&& 0xFE)
    ∧ toByte ((toByte (c.val ||| 0x01)).val ||| 0x01) = toByte (c.val ||| 0x01)
    ∧ toByte ((toByte (c.val &&& 0xFE)).val ||| 0x01) = toByte (c.val ||| 0x01)
    ∧ toByte ((toByte (c.val ||| 0x01)).val &&& 0xFE) = toByte (c.val &&& 0xFE) := by
  decide

/-- C13: `standby` leaves `CTRL_REG1` equal to its prior value with bit 0 cleared and
`active` leaves it equal to its prior value with bit 0 set, bits 1-7 kept by both; each
is idempotent, and `active` after `standby` or `standby` after `active` leaves the
register file the later call alone leaves. -/
theorem standby_active_bit0 (d : MMA8451Q) (w : TwoWire) :
    ∃ ws wa, standby d w = some ws ∧ active d w = some wa
      ∧ (ws.regs CTRL_REG1).val = (w.regs CTRL_REG1).val &&& 0xFE
      ∧ (wa.regs CTRL_REG1).val = (w.regs CTRL_REG1).val ||| 0x01
      ∧ (∃ w2, standby d ws = some w2 ∧ w2.regs = ws.regs)
      ∧ (∃ w2, active d wa = some w2 ∧ w2.regs = wa.regs)
      ∧ (∃ w2, active d ws = some w2 ∧ w2.regs = wa.regs)
      ∧ (∃ w2, standby d wa = some w2 ∧ w2.regs = ws.regs) := by
  obtain ⟨ws, hs, rs, -⟩ := standby_spec d w
  obtain ⟨wa, ha, ra, -⟩ := active_spec d w
  obtain ⟨wss, hss, rss, -⟩ := standby_spec d ws
  obtain ⟨waa, haa, raa, -⟩ := active_spec d wa
  obtain ⟨wsa, hsa, rsa, -⟩ := active_spec d ws
  obtain ⟨was, has, ras, -⟩ := standby_spec d wa
  obtain ⟨b1, b2, b3, b4, b5, b6⟩ := bit0_bytes (w.regs CTRL_REG1)
  refine ⟨ws, wa, hs, ha, ?_, ?_, ⟨wss, hss, ?_⟩, ⟨waa, haa, ?_⟩, ⟨wsa, hsa, ?_⟩,
    ⟨was, has, ?_⟩⟩
  · rw [rs, Function.update_same, b1]
  · rw [ra, Function.update_same, b2]
  · rw [rss, rs, Function.update_same, Function.update_idem, b3]
  · rw [raa, ra, Function.update_same, Function.update_idem, b4]
  · rw [rsa, rs, ra, Function.update_same, Function.update_idem, b5]
  · rw [ras, ra, rs, Function.update_same, Function.update_idem, b6]

set_option maxRecDepth 100000 in
/-- Setting bit 6 of a byte stays within the byte. -/
theorem or_0x40_byte : ∀ c : Byte, (toByte (c.val ||| 0x40)).val = c.val ||| 0x40 := by
  decide

/-- C14: `setupPL` leaves `PL_CFG` equal to its prior value or-ed with 0x40 and sets
`PL_COUNT` to 0x50, which is 80 counts, 100 ms at the 1.25 ms step of the 800 Hz rate. -/
theorem setupPL_registers (d : MMA8451Q) (w : TwoWire) :
    ∃ w', setupPL d w = some w'
      ∧ (w'.regs PL_CFG).val = (w.regs PL_CFG).val ||| 0x40
      ∧ w'.regs PL_COUNT = 0x50
      ∧ (w'.regs PL_COUNT).val = 80
      ∧ ((w'.regs PL_COUNT).val : ℚ) * (1000 / 800) = 100 := by
  obtain ⟨w', hp, hr, -⟩ := setupPL_spec d w
  have hne : PL_CFG ≠ PL_COUNT := by decide
  have hc : w'.regs PL_COUNT = 0x50 := by
    rw [hr, Function.update_same]
  refine ⟨w', hp, ?_, hc, ?_, ?_⟩
  · rw [hr, Function.update_noteq hne, Function.update_same, or_0x40_byte]
  · rw [hc]
    rfl
  · rw [hc]
    have hv : (0x50 : Byte).val = 80 := rfl
    rw [hv]
    norm_num

set_option maxRecDepth 100000 in
/-- C15: `available` returns 1 when bit 3 of the status byte is set and 0 when it is
clear, and never any other value. -/
theorem available_zero_or_one (d : MMA8451Q) (w : TwoWire) :
    ∃ r w', available d w = some (r, w')
      ∧ ((w.regs STATUS).val &&& 0x08 ≠ 0 → r = 1)
      ∧ ((w.regs STATUS).val &&& 0x08 = 0 → r = 0)
      ∧ (r = 0 ∨ r = 1) := by
  refine ⟨_, _, available_eq d w, ?_⟩
  generalize w.regs STATUS = s
  revert s
  decide

/-- C16: a successful `init` leaves the default tap configuration: `PULSE_CFG` is 0x70
(the X and Y tap bits 0-3 clear, the Z tap bits 4-5 and bit 6 set), `PULSE_THSZ` is 0x08
(8 steps of 0.0625 g, 0.5 g), and `PULSE_THSX` and `PULSE_THSY` are as before `init`. -/
theorem init_default_tap (d : MMA8451Q) (w : TwoWire) (fsr : MMA8451Q_Scale)
    (odr : MMA8451Q_ODR) (h : w.regs WHO_AM_I = 0x1A) :
    ∃ d' w', init d w fsr odr = some (1, d', w')
      ∧ w'.regs PULSE_CFG = 0x70
      ∧ (w'.regs PULSE_CFG).val &&& 0x0F = 0
      ∧ (w'.regs PULSE_CFG).val &&& 0x70 = 0x70
      ∧ w'.regs PULSE_THSZ = 0x08
      ∧ ((w'.regs PULSE_THSZ).val : ℚ) * (625 / 10000) = 1 / 2
      ∧ w'.regs PULSE_THSX = w.regs PULSE_THSX
      ∧ w'.regs PULSE_THSY = w.regs PULSE_THSY := by
  obtain ⟨w', a, b, c, e, f, hi, hr, -, -, -⟩ := init_match_regs d w fsr odr h
  have hcfg : w'.regs PULSE_CFG = 0x70 := by
    rw [hr]
    simp [Function.update, CTRL_REG1, XYZ_DATA_CFG, PL_CFG, PL_COUNT, PULSE_THSZ, PULSE_CFG,
      PULSE_TMLT, PULSE_LTCY, PULSE_WIND]
  have hz : w'.regs PULSE_THSZ = 0x08 := by
    rw [hr]
    simp [Function.update, CTRL_REG1, XYZ_DATA_CFG, PL_CFG, PL_COUNT, PULSE_THSZ, PULSE_CFG,
      PULSE_TMLT, PULSE_LTCY, PULSE_WIND]
  refine ⟨_, w', hi, hcfg, ?_, ?_, hz, ?_, ?_, ?_⟩
  · rw [hcfg]
    decide
  · rw [hcfg]
    decide
  · rw [hz]
    have hv : (0x08 : Byte).val = 8 := rfl
    rw [hv]
    norm_num
  · rw [hr]
    simp [Function.update, CTRL_REG1, XYZ_DATA_CFG, PL_CFG, PL_COUNT, PULSE_THSZ, PULSE_CFG,
      PULSE_TMLT, PULSE_LTCY, PULSE_WIND, PULSE_THSX]
  · rw [hr]
    simp [Function.update, CTRL_REG1, XYZ_DATA_CFG, PL_CFG, PL_COUNT, PULSE_THSZ, PULSE_CFG,
      PULSE_TMLT, PULSE_LTCY, PULSE_WIND, PULSE_THSY]

/-- C16 (witness): a sensor that identifies as 0x1A and holds 0x15 in `PULSE_THSX`. -/
theorem init_default_tap_witness :
    ∃ d' w', init (MMA8451Q.new 0x1D)
        (TwoWire.ofRegs (Function.update (Function.update (fun _ => (0 : Byte)) PULSE_THSX 0x15)
          WHO_AM_I 0x1A)) MMA8451Q_Scale.SCALE_8G MMA8451Q_ODR.ODR_50 = some (1, d', w')
      ∧ w'.regs PULSE_CFG = 0x70
      ∧ w'.regs PULSE_THSZ = 0x08
      ∧ w'.regs PULSE_THSX = 0x15 := by
  obtain ⟨d', w', hi, hcfg, -, -, hz, -, hx, -⟩ := init_default_tap (MMA8451Q.new 0x1D)
    (TwoWire.ofRegs (Function.update (Function.update (fun _ => (0 : Byte)) PULSE_THSX 0x15)
      WHO_AM_I 0x1A)) MMA8451Q_Scale.SCALE_8G MMA8451Q_ODR.ODR_50 (by simp [TwoWire.ofRegs])
  refine ⟨d', w', hi, hcfg, hz, ?_⟩
  rw [hx]
  simp [TwoWire.ofRegs, Function.update, PULSE_THSX, WHO_AM_I]

end MMA8451Q

namespace TwoWire

/-- Replaying any prefix of a log whose stores to `CTRL_REG1` all have bit 0 clear, on a
register file whose `CTRL_REG1` has bit 0 clear, leaves bit 0 of `CTRL_REG1` clear. -/
theorem replay_take_bit0 (l : List (Byte × Byte)) (r : Byte → Byte)
    (hr : (r CTRL_REG1).val &&& 1 = 0)
    (hl : ∀ p, p ∈ l → p.1 = CTRL_REG1 → p.2.val &&& 1 = 0) (k : Nat) :
    ((replay r (l.take k)) CTRL_REG1).val &&& 1 = 0 := by
  induction l generalizing r k with
  | nil => simpa [replay] using hr
  | cons p l ih =>
    cases k with
    | zero => simpa [replay] using hr
    | succ k =>
      have e : replay r ((p :: l).take (k + 1)) = replay (Function.update r p.1 p.2) (l.take k) := by
        simp [replay]
      rw [e]
      apply ih
      · by_cases hp : p.1 = CTRL_REG1
        · rw [hp, Function.update_same]
          exact hl p (List.mem_cons_self _ _) hp
        · rw [Function.update_noteq (Ne.symm hp)]
          exact hr
      · intro q hq
        exact hl q (List.mem_cons_of_mem _ hq)

end TwoWire

namespace MMA8451Q

/-- C17: in a successful `init` the nine register stores between the return of `standby`
and the call of `active` (one of `setScale`, one of `setODR`, two of `setupPL`, five of
`setupTap`) are each made, and `active` is called, while bit 0 of `CTRL_REG1` is clear:
the register file before every one of them, and after the last, has the bit clear. -/
theorem init_config_writes_in_standby (d : MMA8451Q) (w : TwoWire) (fsr : MMA8451Q_Scale)
    (odr : MMA8451Q_ODR) (h : w.regs WHO_AM_I = 0x1A) :
    ∃ w2 w3 w4 w5 w7 b c e,
      standby { d with scale := fsr } (w.begin.afterRead WHO_AM_I 1) = some w2
      ∧ setScale { d with scale := fsr } w2 fsr = some w3
      ∧ setODR { d with scale := fsr } w3 odr = some w4
      ∧ setupPL { d with scale := fsr } w4 = some w5
      ∧ active { d with scale := fsr } (setupTap { d with scale := fsr } w5 0x80 0x80 0x08)
          = some w7
      ∧ init d w fsr odr = some (1, { d with scale := fsr }, w7)
      ∧ (setupTap { d with scale := fsr } w5 0x80 0x80 0x08).writes = w2.writes ++
          [(XYZ_DATA_CFG, b), (CTRL_REG1, c), (PL_CFG, e), (PL_COUNT, 0x50), (PULSE_THSZ, 0x08),
           (PULSE_CFG, 0x70), (PULSE_TMLT, 0x30), (PULSE_LTCY, 0xA0), (PULSE_WIND, 0xFF)]
      ∧ (setupTap { d with scale := fsr } w5 0x80 0x80 0x08).regs = TwoWire.replay w2.regs
          [(XYZ_DATA_CFG, b), (CTRL_REG1, c), (PL_CFG, e), (PL_COUNT, 0x50), (PULSE_THSZ, 0x08),
           (PULSE_CFG, 0x70), (PULSE_TMLT, 0x30), (PULSE_LTCY, 0xA0), (PULSE_WIND, 0xFF)]
      ∧ (∀ k, ((TwoWire.replay w2.regs
          ([(XYZ_DATA_CFG, b), (CTRL_REG1, c), (PL_CFG, e), (PL_COUNT, 0x50), (PULSE_THSZ, 0x08),
            (PULSE_CFG, 0x70), (PULSE_TMLT, 0x30), (PULSE_LTCY, 0xA0),
            (PULSE_WIND, 0xFF)].take k)) CTRL_REG1).val &&& 1 = 0)
      ∧ (w3.regs CTRL_REG1).val &&& 1 = 0
      ∧ (w4.regs CTRL_REG1).val &&& 1 = 0
      ∧ (w5.regs CTRL_REG1).val &&& 1 = 0 := by
  obtain ⟨w2, w3, w4, w5, w7, e2, e3, e4, e5, e7, ei⟩ := init_match_eq d w fsr odr h
  obtain ⟨w2', e2', r2, -⟩ := standby_spec { d with scale := fsr } (w.begin.afterRead WHO_AM_I 1)
  rw [e2] at e2'
  cases e2'
  obtain ⟨w3', e3', r3, l3⟩ := setScale_spec { d with scale := fsr } w2 fsr
  rw [e3] at e3'
  cases e3'
  obtain ⟨w4', e4', r4, l4⟩ := setODR_spec { d with scale := fsr } w3 odr
  rw [e4] at e4'
  cases e4'
  obtain ⟨w5', e5', r5, l5⟩ := setupPL_spec { d with scale := fsr } w4
  rw [e5] at e5'
  cases e5'
  obtain ⟨r6, l6⟩ := setupTap_spec { d with scale := fsr } w5 0x80 0x80 0x08
  have hx : ¬ ((0x80 : Byte).val &&& 0x80 = 0) := by decide
  have hz : (0x08 : Byte).val &&& 0x80 = 0 := by decide
  simp only [hx, hz, if_true, if_false] at r6 l6
  have hcfg : toByte (0x40 ||| 0 ||| 0 ||| 0x30) = 0x70 := by decide
  rw [hcfg] at r6 l6
  have n1 : CTRL_REG1 ≠ XYZ_DATA_CFG := by decide
  have n2 : CTRL_REG1 ≠ PL_CFG := by decide
  have n3 : CTRL_REG1 ≠ PL_COUNT := by decide
  have b2 : (w2.regs CTRL_REG1).val &&& 1 = 0 := by
    rw [r2, Function.update_same]
    exact standby_byte_bit0 _
  have b3 : (w3.regs CTRL_REG1).val &&& 1 = 0 := by
    rw [r3, Function.update_noteq n1]
    exact b2
  have b4 : (w4.regs CTRL_REG1).val &&& 1 = 0 := by
    rw [r4, Function.update_same, setODR_byte_bit0]
    exact b3
  have b5 : (w5.regs CTRL_REG1).val &&& 1 = 0 := by
    rw [r5, Function.update_noteq n3, Function.update_noteq n2]
    exact b4
  have bc : (toByte ((toByte ((w3.regs CTRL_REG1).val &&& 0xCF)).val
      ||| (odr.toNat <<< 3))).val &&& 1 = 0 := by
    rw [setODR_byte_bit0]
    exact b3
  refine ⟨w2, w3, w4, w5, w7,
    toByte ((toByte ((w2.regs XYZ_DATA_CFG).val &&& 0xFC)).val ||| (fsr.toNat >>> 2)),
    toByte ((toByte ((w3.regs CTRL_REG1).val &&& 0xCF)).val ||| (odr.toNat <<< 3)),
    toByte ((w4.regs PL_CFG).val ||| 0x40),
    e2, e3, e4, e5, e7, ei, ?_, ?_, ?_, b3, b4, b5⟩
  · rw [l6, l5, l4, l3]
    simp only [List.append_assoc, List.cons_append, List.nil_append]
  · rw [r6, r5, r4, r3]
    rfl
  · intro k
    apply TwoWire.replay_take_bit0 _ _ b2
    intro p hp hc
    simp only [List.mem_cons, List.mem_singleton, List.not_mem_nil, or_false] at hp
    rcases hp with rfl | rfl | rfl | rfl | rfl | rfl | rfl | rfl | rfl
    · exact absurd hc (show ¬ (XYZ_DATA_CFG = CTRL_REG1) by decide)
    · exact bc
    · exact absurd hc (show ¬ (PL_CFG = CTRL_REG1) by decide)
    · exact absurd hc (show ¬ (PL_COUNT = CTRL_REG1) by decide)
    · exact absurd hc (show ¬ (PULSE_THSZ = CTRL_REG1) by decide)
    · exact absurd hc (show ¬ (PULSE_CFG = CTRL_REG1) by decide)
    · exact absurd hc (show ¬ (PULSE_TMLT = CTRL_REG1) by decide)
    · exact absurd hc (show ¬ (PULSE_LTCY = CTRL_REG1) by decide)
    · exact absurd hc (show ¬ (PULSE_WIND = CTRL_REG1) by decide)

end MMA8451Q

namespace MMA8451Q

/-- C17 (witness): a sensor that identifies as 0x1A and is in active mode
(`CTRL_REG1` = 0x01) when `init` is called. -/
theorem init_config_writes_in_standby_witness :
    ∃ w2 w3 w4 w7,
      standby { MMA8451Q.new 0x1C with scale := MMA8451Q_Scale.SCALE_2G }
          ((TwoWire.ofRegs (Function.update (Function.update (fun _ => (0 : Byte)) CTRL_REG1 0x01)
            WHO_AM_I 0x1A)).begin.afterRead WHO_AM_I 1) = some w2
      ∧ setScale { MMA8451Q.new 0x1C with scale := MMA8451Q_Scale.SCALE_2G } w2
          MMA8451Q_Scale.SCALE_2G = some w3
      ∧ setODR { MMA8451Q.new 0x1C with scale := MMA8451Q_Scale.SCALE_2G } w3
          MMA8451Q_ODR.ODR_1 = some w4
      ∧ init (MMA8451Q.new 0x1C)
          (TwoWire.ofRegs (Function.update (Function.update (fun _ => (0 : Byte)) CTRL_REG1 0x01)
            WHO_AM_I 0x1A)) MMA8451Q_Scale.SCALE_2G MMA8451Q_ODR.ODR_1
          = some (1, { MMA8451Q.new 0x1C with scale := MMA8451Q_Scale.SCALE_2G }, w7)
      ∧ (w3.regs CTRL_REG1).val &&& 1 = 0
      ∧ (w4.regs CTRL_REG1).val &&& 1 = 0 := by
  obtain ⟨w2, w3, w4, w5, w7, b, c, e, e2, e3, e4, -, -, ei, -, -, -, b3, b4, -⟩ :=
    init_config_writes_in_standby (MMA8451Q.new 0x1C)
      (TwoWire.ofRegs (Function.update (Function.update (fun _ => (0 : Byte)) CTRL_REG1 0x01)
        WHO_AM_I 0x1A)) MMA8451Q_Scale.SCALE_2G MMA8451Q_ODR.ODR_1 (by simp [TwoWire.ofRegs])
  exact ⟨w2, w3, w4, w7, e2, e3, e4, ei, b3, b4⟩

/-- C18: every configuration operation returns and leaves each register other than its
own as it was: `setScale` all but `XYZ_DATA_CFG`; `setODR`, `standby` and `active` all
but `CTRL_REG1`; `setupPL` all but `PL_CFG` and `PL_COUNT`; `setupTap` all but the three
threshold registers, `PULSE_CFG` and the three timing registers. -/
theorem config_operations_frame (d : MMA8451Q) (w : TwoWire) (a : Byte) :
    (∀ r, a ≠ XYZ_DATA_CFG → ∃ w', setScale d w r = some w' ∧ w'.regs a = w.regs a)
    ∧ (∀ odr, a ≠ CTRL_REG1 → ∃ w', setODR d w odr = some w' ∧ w'.regs a = w.regs a)
    ∧ (a ≠ CTRL_REG1 → ∃ w', standby d w = some w' ∧ w'.regs a = w.regs a)
    ∧ (a ≠ CTRL_REG1 → ∃ w', active d w = some w' ∧ w'.regs a = w.regs a)
    ∧ (a ≠ PL_CFG → a ≠ PL_COUNT → ∃ w', setupPL d w = some w' ∧ w'.regs a = w.regs a)
    ∧ (∀ xThs yThs zThs, a ≠ PULSE_THSX → a ≠ PULSE_THSY → a ≠ PULSE_THSZ → a ≠ PULSE_CFG →
        a ≠ PULSE_TMLT → a ≠ PULSE_LTCY → a ≠ PULSE_WIND →
        (setupTap d w xThs yThs zThs).regs a = w.regs a) := by
  refine ⟨?_, ?_, ?_, ?_, ?_, ?_⟩
  · intro r h
    obtain ⟨w', hs, hr, -⟩ := setScale_spec d w r
    exact ⟨w', hs, by rw [hr, Function.update_noteq h]⟩
  · intro odr h
    obtain ⟨w', hs, hr, -⟩ := setODR_spec d w odr
    exact ⟨w', hs, by rw [hr, Function.update_noteq h]⟩
  · intro h
    obtain ⟨w', hs, hr, -⟩ := standby_spec d w
    exact ⟨w', hs, by rw [hr, Function.update_noteq h]⟩
  · intro h
    obtain ⟨w', hs, hr, -⟩ := active_spec d w
    exact ⟨w', hs, by rw [hr, Function.update_noteq h]⟩
  · intro h1 h2
    obtain ⟨w', hs, hr, -⟩ := setupPL_spec d w
    exact ⟨w', hs, by rw [hr, Function.update_noteq h2, Function.update_noteq h1]⟩
  · intro xThs yThs zThs hx hy hz hc ht hl hw
    rw [(setupTap_spec d w xThs yThs zThs).1, Function.update_noteq hw, Function.update_noteq hl,
      Function.update_noteq ht, Function.update_noteq hc]
    by_cases bx : xThs.val &&& 0x80 = 0 <;> by_cases b_y : yThs.val &&& 0x80 = 0 <;>
      by_cases bz : zThs.val &&& 0x80 = 0 <;>
      simp only [bx, b_y, bz, if_true, if_false] <;>
      simp only [Function.update_noteq hx, Function.update_noteq hy, Function.update_noteq hz]

/-- C18 (witness): the identity register 0x1A survives `setScale`, `setupPL` and
`setupTap` with all three axes enabled. -/
theorem config_operations_frame_witness :
    (∃ w', setScale (MMA8451Q.new 0x1C)
        (TwoWire.ofRegs (Function.update (fun _ => (0 : Byte)) WHO_AM_I 0x1A))
        MMA8451Q_Scale.SCALE_8G = some w'
      ∧ w'.regs WHO_AM_I
          = (TwoWire.ofRegs (Function.update (fun _ => (0 : Byte)) WHO_AM_I 0x1A)).regs WHO_AM_I)
    ∧ (∃ w', setupPL (MMA8451Q.new 0x1C)
        (TwoWire.ofRegs (Function.update (fun _ => (0 : Byte)) WHO_AM_I 0x1A)) = some w'
      ∧ w'.regs WHO_AM_I
          = (TwoWire.ofRegs (Function.update (fun _ => (0 : Byte)) WHO_AM_I 0x1A)).regs WHO_AM_I)
    ∧ (setupTap (MMA8451Q.new 0x1C)
        (TwoWire.ofRegs (Function.update (fun _ => (0 : Byte)) WHO_AM_I 0x1A))
        0x10 0x10 0x10).regs WHO_AM_I
          = (TwoWire.ofRegs (Function.update (fun _ => (0 : Byte)) WHO_AM_I 0x1A)).regs
              WHO_AM_I :=
  ⟨(config_operations_frame (MMA8451Q.new 0x1C)
      (TwoWire.ofRegs (Function.update (fun _ => (0 : Byte)) WHO_AM_I 0x1A)) WHO_AM_I).1
        MMA8451Q_Scale.SCALE_8G (by decide),
    (config_operations_frame (MMA8451Q.new 0x1C)
      (TwoWire.ofRegs (Function.update (fun _ => (0 : Byte)) WHO_AM_I 0x1A)) WHO_AM_I).2.2.2.2.1
        (by decide) (by decide),
    (config_operations_frame (MMA8451Q.new 0x1C)
      (TwoWire.ofRegs (Function.update (fun _ => (0 : Byte)) WHO_AM_I 0x1A)) WHO_AM_I).2.2.2.2.2
        0x10 0x10 0x10 (by decide) (by decide) (by decide) (by decide) (by decide) (by decide)
        (by decide)⟩

/-- C19: the four read operations return and leave the register file and the write log
as they were; `available`, `readTap` and `readPL` take the driver state as a read-only
argument, and `read`, which stores the raw and calibrated axes, keeps the stored
address and scale. -/
theorem read_operations_write_nothing (d : MMA8451Q) (w : TwoWire) :
    (∃ r w', available d w = some (r, w') ∧ w'.regs = w.regs ∧ w'.writes = w.writes)
    ∧ (∃ r w', readTap d w = some (r, w') ∧ w'.regs = w.regs ∧ w'.writes = w.writes)
    ∧ (∃ r w', readPL d w = some (r, w') ∧ w'.regs = w.regs ∧ w'.writes = w.writes)
    ∧ (∃ d' w', read d w = some (d', w') ∧ w'.regs = w.regs ∧ w'.writes = w.writes
        ∧ d'.address = d.address ∧ d'.scale = d.scale) := by
  refine ⟨⟨_, _, available_eq d w, rfl, rfl⟩, ⟨_, _, readTap_eq d w, rfl, rfl⟩,
    ⟨_, _, readPL_eq d w, rfl, rfl⟩, ?_⟩
  obtain ⟨d', w', hrd, -, -, -, -, -, -, ha, hs, hr, hw⟩ := read_fields d w
  exact ⟨d', w', hrd, hr, hw, ha, hs⟩

end MMA8451Q
